import Mathlib

/-!
Verification of the `usbd-fs-stm32` USB FS device stack core (`src/usbd.c`).

This file is a shallow embedding of the core of `src/usbd.c`:

* the per-endpoint register (`EPnR`) write discipline, with the hardware
  semantics of the STM32 USB endpoint registers (toggle bits, `rc_w0`
  sticky bits, read-only `SETUP` bit);
* the PMA buffer-descriptor layout routine `pma_init`;
* the endpoint I/O primitives `usbd_in` / `usbd_out` and the multi-packet
  control transfer helpers `usbd_control_in` / `usbd_control_in_resume`;
* the control request dispatcher `handle_ctrl_setup`;
* the event loop `usbd_task`.

Machine registers and PMA words are modelled as `Nat` with explicit masking
where the C code masks; the PMA packet payload of each endpoint direction is
modelled as a `List Nat` of bytes (the C code copies bytes through 16-bit
PMA words; the transmitted packet is the first `cnt` bytes of the slot, which
is what the byte-list captures).  Application callbacks are external
collaborators: descriptor callbacks are modelled as optional values, request
callbacks (class/vendor/interface) as optional pure predicates on the
request, and notification hooks (reset/suspend/resume/address) as opaque
no-ops, since they do not touch driver state in the modelled claims.
-/

/-! ## STM32 USB peripheral register constants (fixed by the hardware) -/

def USB_EP_CTR_RX : Nat := 0x8000
def USB_EP_DTOG_RX : Nat := 0x4000
def USB_EPRX_STAT : Nat := 0x3000
def USB_EP_SETUP : Nat := 0x0800
def USB_EP_T_FIELD : Nat := 0x0600
def USB_EP_KIND : Nat := 0x0100
def USB_EP_CTR_TX : Nat := 0x0080
def USB_EP_DTOG_TX : Nat := 0x0040
def USB_EPTX_STAT : Nat := 0x0030
def USB_EPADDR_FIELD : Nat := 0x000F

/-- `USB_EPREG_MASK = CTR_RX|SETUP|T_FIELD|KIND|CTR_TX|EPADDR = 0x8F8F`. -/
def USB_EPREG_MASK : Nat :=
  USB_EP_CTR_RX ||| USB_EP_SETUP ||| USB_EP_T_FIELD ||| USB_EP_KIND |||
    USB_EP_CTR_TX ||| USB_EPADDR_FIELD

def USB_EP_RX_VALID : Nat := 0x3000
def USB_EP_RX_NAK : Nat := 0x2000
def USB_EP_RX_STALL : Nat := 0x1000
def USB_EP_TX_VALID : Nat := 0x0030
def USB_EP_TX_NAK : Nat := 0x0020
def USB_EP_TX_STALL : Nat := 0x0010

def USB_EP_BULK : Nat := 0x0000
def USB_EP_CONTROL : Nat := 0x0200
def USB_EP_ISOCHRONOUS : Nat := 0x0400
def USB_EP_INTERRUPT : Nat := 0x0600

def USB_ISTR_CTR : Nat := 0x8000
def USB_ISTR_WKUP : Nat := 0x1000
def USB_ISTR_SUSP : Nat := 0x0800
def USB_ISTR_RESET : Nat := 0x0400
def USB_ISTR_SOF : Nat := 0x0200
def USB_ISTR_EP_ID : Nat := 0x000F

def USB_CNTR_FSUSP : Nat := 0x0008

def USB_DADDR_EF : Nat := 0x80
def USB_DADDR_ADD : Nat := 0x7F

def USB_COUNT0_RX_BLSIZE : Nat := 0x8000
def USB_COUNT_RX_MASK : Nat := 0x3FF

def USBD_EP0_SIZE : Nat := 64

/-! ## Standard USB request constants.

Modelled from the spec: the repository header `usb-std.h` (not included under
`src/`) defines the standard USB 2.0 request constants; the values below are
the byte layouts published in the USB 2.0 specification, which the spec's
"Wire formats" section mandates. -/

def USB_REQ_DIR_MASK : Nat := 0x80
def USB_REQ_DIR_HOST_TO_DEVICE : Nat := 0x00
def USB_REQ_DIR_DEVICE_TO_HOST : Nat := 0x80
def USB_REQ_TYPE_MASK : Nat := 0x60
def USB_REQ_TYPE_STANDARD : Nat := 0x00
def USB_REQ_TYPE_CLASS : Nat := 0x20
def USB_REQ_TYPE_VENDOR : Nat := 0x40
def USB_REQ_RCPT_MASK : Nat := 0x1F
def USB_REQ_RCPT_DEVICE : Nat := 0x00
def USB_REQ_RCPT_INTERFACE : Nat := 0x01
def USB_REQ_RCPT_ENDPOINT : Nat := 0x02

def USB_REQ_GET_STATUS : Nat := 0
def USB_REQ_CLEAR_FEATURE : Nat := 1
def USB_REQ_SET_FEATURE : Nat := 3
def USB_REQ_SET_ADDRESS : Nat := 5
def USB_REQ_GET_DESCRIPTOR : Nat := 6
def USB_REQ_SET_DESCRIPTOR : Nat := 7
def USB_REQ_GET_CONFIGURATION : Nat := 8
def USB_REQ_SET_CONFIGURATION : Nat := 9
def USB_REQ_GET_INTERFACE : Nat := 10
def USB_REQ_SET_INTERFACE : Nat := 11
def USB_REQ_SYNCH_FRAME : Nat := 12

def USB_FEAT_ENDPOINT_HALT : Nat := 0

def USB_DESCR_TYPE_DEVICE : Nat := 1
def USB_DESCR_TYPE_CONFIGURATION : Nat := 2
def USB_DESCR_TYPE_STRING : Nat := 3

def USB_DESCR_EPT_ADDR_DIR_IN : Nat := 0x80
def USB_DESCR_CONFIG_ATTR_SELF_POWERED : Nat := 0x40

/-! ## Hardware write semantics of `EPnR` and `ISTR` -/

/-- Clear the bits of `m` in `x`, leaving every other bit alone
(`x & ~m` on a machine word, written width-independently). -/
def clearBits (x m : Nat) : Nat := x ^^^ (x &&& m)

/-- Bit classes of an `EPnR` register: `CTR_RX`(15) and `CTR_TX`(7) are
`rc_w0` (writing 0 clears, writing 1 leaves unchanged). -/
def EPR_RC_W0_MASK : Nat := 0x8080

/-- `DTOG_RX`(14), `STAT_RX`(13:12), `DTOG_TX`(6), `STAT_TX`(5:4) are
toggle bits (writing 1 toggles, writing 0 leaves unchanged). -/
def EPR_TOGGLE_MASK : Nat := 0x7070

/-- `EP_TYPE`(10:9), `EP_KIND`(8) and `EA`(3:0) are plain read-write bits. -/
def EPR_RW_MASK : Nat := 0x070F

/-- `SETUP`(11) is read-only. -/
def EPR_RO_MASK : Nat := 0x0800

/-- Hardware effect of storing the value `w` into an `EPnR` register holding
`r`, per the STM32 reference manuals: `rc_w0` bits are and-ed, toggle bits
are xor-ed, rw bits are overwritten, the read-only bit is kept. -/
def epr_write (r w : Nat) : Nat :=
  (r &&& w &&& EPR_RC_W0_MASK) ||| ((r ^^^ w) &&& EPR_TOGGLE_MASK) |||
    (w &&& EPR_RW_MASK) ||| (r &&& EPR_RO_MASK)

/-- Sticky `CTR_RX` flag of an `EPnR` value. -/
def ctrRx (r : Nat) : Bool := r.testBit 15

/-- Sticky `CTR_TX` flag of an `EPnR` value. -/
def ctrTx (r : Nat) : Bool := r.testBit 7

/-- The `STAT_TX` field of an `EPnR` value, in place (bits 5:4). -/
def statTx (r : Nat) : Nat := 16 * (2 * (r.testBit 5).toNat + (r.testBit 4).toNat)

/-- The `STAT_RX` field of an `EPnR` value, in place (bits 13:12). -/
def statRx (r : Nat) : Nat := 0x1000 * (2 * (r.testBit 13).toNat + (r.testBit 12).toNat)

/-! ## Values the stack stores into `EPnR` registers.

Each `w_*` function is the value computed by one of the `*ep = ...` /
`*ep &= ...` / `*ep |= ...` statements of `src/usbd.c`, as a function of the
current register value `r`; the store itself goes through `epr_write`. -/

/-- `usbd.c:203` — arm TX: `(*ep ^ USB_EP_TX_VALID) & (USB_EPREG_MASK | USB_EPTX_STAT)`. -/
def w_tx_arm (r : Nat) : Nat := (r ^^^ USB_EP_TX_VALID) &&& (USB_EPREG_MASK ||| USB_EPTX_STAT)

/-- `usbd.c:222` — re-arm RX: `(*ep ^ USB_EP_RX_VALID) & (USB_EPREG_MASK | USB_EPRX_STAT)`. -/
def w_rx_arm (r : Nat) : Nat := (r ^^^ USB_EP_RX_VALID) &&& (USB_EPREG_MASK ||| USB_EPRX_STAT)

/-- `usbd.c:379` and `usbd.c:504` — TX to NAK with `DTOG_TX` cleared. -/
def w_tx_nak_dtog (r : Nat) : Nat :=
  (r ^^^ USB_EP_TX_NAK) &&& (USB_EPREG_MASK ||| USB_EPTX_STAT ||| USB_EP_DTOG_TX)

/-- `usbd.c:385` and `usbd.c:507` — RX to VALID with `DTOG_RX` cleared. -/
def w_rx_valid_dtog (r : Nat) : Nat :=
  (r ^^^ USB_EP_RX_VALID) &&& (USB_EPREG_MASK ||| USB_EPRX_STAT ||| USB_EP_DTOG_RX)

/-- `usbd.c:406` and `usbd.c:660` — TX to STALL. -/
def w_tx_stall (r : Nat) : Nat := (r ^^^ USB_EP_TX_STALL) &&& (USB_EPREG_MASK ||| USB_EPTX_STAT)

/-- `usbd.c:412` and `usbd.c:661` — RX to STALL. -/
def w_rx_stall (r : Nat) : Nat := (r ^^^ USB_EP_RX_STALL) &&& (USB_EPREG_MASK ||| USB_EPRX_STAT)

/-- `usbd.c:490`, `usbd.c:500`, `usbd.c:615` — `*ep &= ~USB_EPREG_MASK`
(disable the endpoint; on the 16-bit register `~0x8F8F` is `0x7070`). -/
def w_disable (r : Nat) : Nat := r &&& (0xFFFF ^^^ USB_EPREG_MASK)

/-- `usbd.c:501`, `usbd.c:621` — `*ep |= t` (endpoint type and address). -/
def w_set_bits (t r : Nat) : Nat := r ||| t

/-- `usbd.c:622` — EP0 after bus reset:
`(EP0R ^ (RX_VALID | TX_NAK)) & (EPREG_MASK | EPRX_STAT | DTOG_RX | DTOG_TX)`. -/
def w_reset_ep0 (r : Nat) : Nat :=
  (r ^^^ (USB_EP_RX_VALID ||| USB_EP_TX_NAK)) &&&
    (USB_EPREG_MASK ||| USB_EPRX_STAT ||| USB_EP_DTOG_RX ||| USB_EP_DTOG_TX)

/-- `usbd.c:650`, `usbd.c:680` — `*ep &= USB_EPREG_MASK ^ USB_EP_CTR_RX`
(masked clear-to-0 of the sticky `CTR_RX` flag). -/
def w_clear_ctr_rx (r : Nat) : Nat := r &&& (USB_EPREG_MASK ^^^ USB_EP_CTR_RX)

/-- `usbd.c:666`, `usbd.c:685` — `*ep &= USB_EPREG_MASK ^ USB_EP_CTR_TX`
(masked clear-to-0 of the sticky `CTR_TX` flag). -/
def w_clear_ctr_tx (r : Nat) : Nat := r &&& (USB_EPREG_MASK ^^^ USB_EP_CTR_TX)

/-! ## Data model -/

/-- Compile-time endpoint configuration (`USBD_EPn_TYPE`, `USBD_EPn_*_SIZE`). -/
structure EPCfg where
  type : Nat
  size_in : Nat
  size_out : Nat
deriving DecidableEq, Repr

/-- The static `endpoints[]` table: slot 0 is always the 64/64-byte control
endpoint, slots 1..7 come from the compile-time configuration `u`. -/
def endpoints (u : Nat → EPCfg) : Nat → EPCfg := fun i =>
  if i = 0 then ⟨USB_EP_CONTROL, USBD_EP0_SIZE, USBD_EP0_SIZE⟩ else u i

/-- Device state machine of the control engine. -/
inductive DState where
  | default
  | address
  | configured
deriving DecidableEq, Repr

/-- Machine + driver state. Registers (`istr`, `cntr`, `daddr`, `epr`) and
PMA descriptor words (`pinAddr`/`pinCnt`/`poutAddr`/`poutCnt`) model the
peripheral; `pinData`/`poutData` are the byte payload of each PMA slot;
the remaining fields are the module-local driver variables of `usbd.c`. -/
structure Dev where
  istr : Nat
  cntr : Nat
  daddr : Nat
  epr : Nat → Nat
  pinAddr : Nat → Nat
  pinCnt : Nat → Nat
  pinData : Nat → List Nat
  poutAddr : Nat → Nat
  poutCnt : Nat → Nat
  poutData : Nat → List Nat
  state : DState
  set_address : Bool
  address : Nat
  ctrl_in_buf : Option (List Nat)
  ctrl_in_buflen : Nat
  current_ep : Nat

/-- Store the value `f (d.epr ept)` into `EPnR` of endpoint `ept`, through
the hardware write semantics. -/
def eprApply (d : Dev) (ept : Nat) (f : Nat → Nat) : Dev :=
  { d with epr := Function.update d.epr ept (epr_write (d.epr ept) (f (d.epr ept))) }

/-- An 8-byte SETUP packet, parsed (`usb_ctrl_request_t`, packed little-endian). -/
structure CtrlReq where
  bmRequestType : Nat
  bRequest : Nat
  wValue : Nat
  wIndex : Nat
  wLength : Nat
deriving DecidableEq, Repr

def parseReq (b : List Nat) : CtrlReq :=
  { bmRequestType := b.getD 0 0
    bRequest := b.getD 1 0
    wValue := b.getD 2 0 + 256 * b.getD 3 0
    wIndex := b.getD 4 0 + 256 * b.getD 5 0
    wLength := b.getD 6 0 + 256 * b.getD 7 0 }

/-- A device descriptor as the core consumes it: its `bLength` field and its
raw bytes. -/
structure DevDescr where
  bLength : Nat
  bytes : List Nat

/-- A configuration descriptor block as the core consumes it. -/
structure CfgDescr where
  wTotalLength : Nat
  bConfigurationValue : Nat
  bmAttributes : Nat
  bytes : List Nat

/-- An interface descriptor as the core consumes it. -/
structure ItfDescr where
  bAlternateSetting : Nat

/-- A string descriptor as the core consumes it. -/
structure StrDescr where
  bLength : Nat
  bytes : List Nat

/-- The application callbacks (weak symbols in the C source).  Request
callbacks are modelled as pure predicates: their verdict decides control
flow, their possible re-entrant effects are outside the modelled claims.
Notification hooks do not touch driver state and are omitted. -/
structure Env where
  dev_descr : Option DevDescr
  cfg_descr : Option CfgDescr
  itf_descr : Nat → Option ItfDescr
  str_descr : Nat → Nat → Option StrDescr
  class_cb : Option (CtrlReq → Bool)
  vendor_cb : Option (CtrlReq → Bool)
  get_descr_itf_cb : Option (CtrlReq → Bool)
  in_cb : Bool
  out_cb : Bool

/-! ## PMA layout (`pma_init`, `usbd.c:148-178`) -/

/-- The RX `COUNT` encoding written by `pma_init` (`usbd.c:168-171`):
`size_out > 62` gives `BLSIZE | ((size_out >> 6) & 0b11111)`, else
`(size_out >> 1) & 0b11111`. -/
def pma_cnt_out (size_out : Nat) : Nat :=
  if 62 < size_out then USB_COUNT0_RX_BLSIZE ||| ((size_out >>> 6) &&& 0b11111)
  else (size_out >>> 1) &&& 0b11111

/-- The loop body of `pma_init`: for `count` endpoints starting at index `i`,
write the IN descriptor (running watermark, count 0) and the OUT descriptor
(watermark after the IN slot, RX count encoding), advancing the watermark. -/
def pma_init_go (u : Nat → EPCfg) (d : Dev) (mem i count : Nat) : Dev :=
  match count with
  | 0 => d
  | c + 1 =>
    let inAddr := mem
    let mem1 := mem + (endpoints u i).size_in
    let outAddr := mem1
    let cnt := pma_cnt_out (endpoints u i).size_out
    let mem2 := mem1 + (endpoints u i).size_out
    let d1 := { d with
      pinAddr := Function.update d.pinAddr i inAddr
      pinCnt := Function.update d.pinCnt i 0
      poutAddr := Function.update d.poutAddr i outAddr
      poutCnt := Function.update d.poutCnt i cnt }
    pma_init_go u d1 mem2 (i + 1) c

/-- `pma_init` (`usbd.c:148-178`): the watermark starts right after the
16-entry descriptor table (offset `16 * 4 = 64`). -/
def pma_init (u : Nat → EPCfg) (d : Dev) : Dev :=
  pma_init_go u d 64 0 8

/-! ## Endpoint I/O (`usbd_in`, `usbd_out`, `usbd.c:181-224`) -/

/-- `usbd_in` (`usbd.c:181-205`): fails for `ept >= 8` or an unarmed IN
descriptor; otherwise copies the first `buflen` bytes of `buf` into the PMA
slot, writes `buflen` to the IN count and arms `STAT_TX` to VALID with a
toggle write. -/
def usbd_in (ept : Nat) (buf : List Nat) (buflen : Nat) (d : Dev) : Bool × Dev :=
  if 8 ≤ ept then (false, d)
  else if d.pinAddr ept = 0 then (false, d)
  else
    let d1 := { d with
      pinData := Function.update d.pinData ept (buf.take buflen)
      pinCnt := Function.update d.pinCnt ept buflen }
    (true, eprApply d1 ept w_tx_arm)

/-- `usbd_out` (`usbd.c:207-224`): returns the received count clamped to
`buflen`, the bytes read, and the state with RX re-armed to VALID. -/
def usbd_out (ept : Nat) (buflen : Nat) (d : Dev) : Nat × List Nat × Dev :=
  if 8 ≤ ept then (0, [], d)
  else if d.poutAddr ept = 0 then (0, [], d)
  else
    let rv0 := d.poutCnt ept &&& USB_COUNT_RX_MASK
    let rv := if buflen < rv0 then buflen else rv0
    (rv, (d.poutData ept).take rv, eprApply d ept w_rx_arm)

/-! ## Control IN transfers (`usbd.c:227-251`) -/

/-- `usbd_control_in` (`usbd.c:230-238`): send the first
`min (min reqlen buflen) 64` bytes now and stash the tail of the transfer in
the continuation (`ctrl_in_buf`, `ctrl_in_buflen`). -/
def usbd_control_in (buf : List Nat) (buflen reqlen : Nat) (d : Dev) : Dev :=
  let total := if reqlen < buflen then reqlen else buflen
  let l := if USBD_EP0_SIZE < total then USBD_EP0_SIZE else total
  let d1 := (usbd_in 0 buf l d).2
  { d1 with
    ctrl_in_buf := if USBD_EP0_SIZE < total then some (buf.drop USBD_EP0_SIZE) else none
    ctrl_in_buflen := if USBD_EP0_SIZE < total then total - USBD_EP0_SIZE else 0 }

/-- `usbd_control_in_resume` (`usbd.c:240-251`): send the next chunk of the
continuation, advancing it; returns `false` when no continuation is pending. -/
def usbd_control_in_resume (d : Dev) : Bool × Dev :=
  match d.ctrl_in_buf with
  | none => (false, d)
  | some buf =>
    let l := if USBD_EP0_SIZE < d.ctrl_in_buflen then USBD_EP0_SIZE else d.ctrl_in_buflen
    let d1 := (usbd_in 0 buf l d).2
    (true,
      { d1 with
        ctrl_in_buf :=
          if USBD_EP0_SIZE < d.ctrl_in_buflen then some (buf.drop USBD_EP0_SIZE) else none
        ctrl_in_buflen :=
          if USBD_EP0_SIZE < d.ctrl_in_buflen then d.ctrl_in_buflen - USBD_EP0_SIZE else 0 })

/-! ## Control request dispatch (`handle_ctrl_setup`, `usbd.c:306-555`) -/

/-- `get_config_bConfigurationValue` (`usbd.c:254-261`). -/
def get_config_bConfigurationValue (env : Env) : Nat :=
  match env.cfg_descr with
  | none => 0
  | some cfg => cfg.bConfigurationValue

/-- `write_device_descriptor` (`usbd.c:263-272`). -/
def write_device_descriptor (env : Env) (req : CtrlReq) (d : Dev) : Bool × Dev :=
  match env.dev_descr with
  | none => (false, d)
  | some dev => (true, usbd_control_in dev.bytes dev.bLength req.wLength d)

/-- `write_config_descriptor` (`usbd.c:274-283`). -/
def write_config_descriptor (env : Env) (req : CtrlReq) (d : Dev) : Bool × Dev :=
  match env.cfg_descr with
  | none => (false, d)
  | some cfg => (true, usbd_control_in cfg.bytes cfg.wTotalLength req.wLength d)

/-- `write_string_descriptor` (`usbd.c:285-294`); the callback takes
`(wIndex, (uint8_t) wValue)`. -/
def write_string_descriptor (env : Env) (req : CtrlReq) (d : Dev) : Bool × Dev :=
  match env.str_descr req.wIndex (req.wValue % 256) with
  | none => (false, d)
  | some s => (true, usbd_control_in s.bytes s.bLength req.wLength d)

/-- The `status[0]` byte of GET_STATUS (`usbd.c:327-360`); `none` models the
handler's early `return false`. -/
def get_status_bit (u : Nat → EPCfg) (env : Env) (req : CtrlReq) (d : Dev) : Option Nat :=
  if req.bmRequestType &&& USB_REQ_RCPT_MASK = USB_REQ_RCPT_DEVICE then
    match env.cfg_descr with
    | some cfg =>
      some (if cfg.bmAttributes &&& USB_DESCR_CONFIG_ATTR_SELF_POWERED ≠ 0 then 1 else 0)
    | none => some 0
  else if req.bmRequestType &&& USB_REQ_RCPT_MASK = USB_REQ_RCPT_INTERFACE then
    match env.itf_descr req.wIndex with
    | none => none
    | some _ => some 0
  else if req.bmRequestType &&& USB_REQ_RCPT_MASK = USB_REQ_RCPT_ENDPOINT then
    let ept := req.wIndex &&& 0x7
    if req.wIndex &&& USB_DESCR_EPT_ADDR_DIR_IN ≠ 0 then
      if (endpoints u ept).size_in = 0 then none
      else some (if d.epr ept &&& USB_EPTX_STAT = USB_EP_TX_STALL then 1 else 0)
    else
      if (endpoints u ept).size_out = 0 then none
      else some (if d.epr ept &&& USB_EPRX_STAT = USB_EP_RX_STALL then 1 else 0)
  else some 0

/-- The per-endpoint body of the SET_CONFIGURATION arming loop
(`usbd.c:495-509`). -/
def cfg_arm (u : Nat → EPCfg) (d : Dev) (i : Nat) : Dev :=
  if (endpoints u i).size_in = 0 ∧ (endpoints u i).size_out = 0 then d
  else
    let d1 := eprApply d i w_disable
    let d2 := eprApply d1 i (w_set_bits ((endpoints u i).type ||| i))
    let d3 := if (endpoints u i).size_in ≠ 0 then eprApply d2 i w_tx_nak_dtog else d2
    if (endpoints u i).size_out ≠ 0 then eprApply d3 i w_rx_valid_dtog else d3

/-- The GET_STATUS case (`usbd.c:322-363`). -/
def handle_get_status (u : Nat → EPCfg) (env : Env) (req : CtrlReq) (d : Dev) : Bool × Dev :=
  if req.bmRequestType &&& USB_REQ_DIR_MASK = USB_REQ_DIR_HOST_TO_DEVICE ∨
      d.state ≠ DState.configured then (false, d)
  else
    match get_status_bit u env req d with
    | none => (false, d)
    | some s0 => (true, usbd_control_in [s0, 0] 2 req.wLength d)

/-- The CLEAR_FEATURE case (`usbd.c:365-390`). -/
def handle_clear_feature (u : Nat → EPCfg) (req : CtrlReq) (d : Dev) : Bool × Dev :=
  if req.bmRequestType &&& USB_REQ_DIR_MASK = USB_REQ_DIR_DEVICE_TO_HOST ∨
      req.bmRequestType &&& USB_REQ_RCPT_MASK ≠ USB_REQ_RCPT_ENDPOINT ∨
      req.wValue ≠ USB_FEAT_ENDPOINT_HALT ∨ d.state ≠ DState.configured then (false, d)
  else
    let ept := req.wIndex &&& 0x7
    if (endpoints u ept).type ≠ USB_EP_BULK ∧
        (endpoints u ept).type ≠ USB_EP_INTERRUPT then (false, d)
    else if req.wIndex &&& USB_DESCR_EPT_ADDR_DIR_IN ≠ 0 then
      if (endpoints u ept).size_in ≠ 0 then (true, eprApply d ept w_tx_nak_dtog)
      else (false, d)
    else
      if (endpoints u ept).size_out ≠ 0 then (true, eprApply d ept w_rx_valid_dtog)
      else (false, d)

/-- The SET_FEATURE case (`usbd.c:392-417`). -/
def handle_set_feature (u : Nat → EPCfg) (req : CtrlReq) (d : Dev) : Bool × Dev :=
  if req.bmRequestType &&& USB_REQ_DIR_MASK = USB_REQ_DIR_DEVICE_TO_HOST ∨
      req.bmRequestType &&& USB_REQ_RCPT_MASK ≠ USB_REQ_RCPT_ENDPOINT ∨
      req.wValue ≠ USB_FEAT_ENDPOINT_HALT ∨ d.state ≠ DState.configured then (false, d)
  else
    let ept := req.wIndex &&& 0x7
    if (endpoints u ept).type ≠ USB_EP_BULK ∧
        (endpoints u ept).type ≠ USB_EP_INTERRUPT then (false, d)
    else if req.wIndex &&& USB_DESCR_EPT_ADDR_DIR_IN ≠ 0 then
      if (endpoints u ept).size_in ≠ 0 then (true, eprApply d ept w_tx_stall)
      else (false, d)
    else
      if (endpoints u ept).size_out ≠ 0 then (true, eprApply d ept w_rx_stall)
      else (false, d)

/-- The SET_ADDRESS case (`usbd.c:419-441`): only latches. -/
def handle_set_address (req : CtrlReq) (d : Dev) : Bool × Dev :=
  if req.bmRequestType &&& USB_REQ_DIR_MASK = USB_REQ_DIR_DEVICE_TO_HOST ∨
      req.bmRequestType &&& USB_REQ_RCPT_MASK ≠ USB_REQ_RCPT_DEVICE then (false, d)
  else
    match d.state with
    | DState.default =>
      if req.wValue = 0 then (true, d)
      else (true, { d with address := req.wValue &&& USB_DADDR_ADD, set_address := true })
    | DState.address =>
      (true, { d with address := req.wValue &&& USB_DADDR_ADD, set_address := true })
    | DState.configured => (true, d)

/-- The GET_DESCRIPTOR case (`usbd.c:443-466`). -/
def handle_get_descriptor (env : Env) (req : CtrlReq) (d : Dev) : Bool × Dev :=
  if req.bmRequestType &&& USB_REQ_DIR_MASK = USB_REQ_DIR_HOST_TO_DEVICE then (false, d)
  else if req.bmRequestType &&& USB_REQ_RCPT_MASK = USB_REQ_RCPT_DEVICE then
    if req.wValue >>> 8 = USB_DESCR_TYPE_DEVICE then write_device_descriptor env req d
    else if req.wValue >>> 8 = USB_DESCR_TYPE_CONFIGURATION then
      write_config_descriptor env req d
    else if req.wValue >>> 8 = USB_DESCR_TYPE_STRING then write_string_descriptor env req d
    else (false, d)
  else if req.bmRequestType &&& USB_REQ_RCPT_MASK = USB_REQ_RCPT_INTERFACE then
    match env.get_descr_itf_cb with
    | some cb => (cb req, d)
    | none => (false, d)
  else (false, d)

/-- The GET_CONFIGURATION case (`usbd.c:472-479`). -/
def handle_get_configuration (env : Env) (req : CtrlReq) (d : Dev) : Bool × Dev :=
  if req.bmRequestType &&& USB_REQ_DIR_MASK = USB_REQ_DIR_HOST_TO_DEVICE ∨
      req.bmRequestType &&& USB_REQ_RCPT_MASK ≠ USB_REQ_RCPT_DEVICE then (false, d)
  else
    let config := if d.state = DState.configured then get_config_bConfigurationValue env else 0
    (true, usbd_control_in [config] 1 req.wLength d)

/-- The SET_CONFIGURATION case (`usbd.c:481-514`). -/
def handle_set_configuration (u : Nat → EPCfg) (env : Env) (req : CtrlReq) (d : Dev) :
    Bool × Dev :=
  if req.bmRequestType &&& USB_REQ_DIR_MASK = USB_REQ_DIR_DEVICE_TO_HOST ∨
      req.bmRequestType &&& USB_REQ_RCPT_MASK ≠ USB_REQ_RCPT_DEVICE ∨
      d.state = DState.default then (false, d)
  else if req.wValue = 0 then
    let d1 := { d with state := DState.address }
    (true, List.foldl (fun d i => eprApply d i w_disable) d1 [1, 2, 3, 4, 5, 6, 7])
  else if req.wValue % 256 = get_config_bConfigurationValue env then
    let d1 := { d with state := DState.configured }
    (true, List.foldl (cfg_arm u) d1 [1, 2, 3, 4, 5, 6, 7])
  else (false, d)

/-- The GET_INTERFACE case (`usbd.c:516-530`). -/
def handle_get_interface (env : Env) (req : CtrlReq) (d : Dev) : Bool × Dev :=
  if req.bmRequestType &&& USB_REQ_DIR_MASK = USB_REQ_DIR_HOST_TO_DEVICE ∨
      req.bmRequestType &&& USB_REQ_RCPT_MASK ≠ USB_REQ_RCPT_INTERFACE ∨
      d.state ≠ DState.configured then (false, d)
  else
    match env.itf_descr req.wIndex with
    | none => (false, d)
    | some itf => (true, usbd_control_in [itf.bAlternateSetting] 1 req.wLength d)

/-- The SET_INTERFACE case (`usbd.c:532-547`). -/
def handle_set_interface (env : Env) (req : CtrlReq) (d : Dev) : Bool × Dev :=
  if req.bmRequestType &&& USB_REQ_DIR_MASK = USB_REQ_DIR_DEVICE_TO_HOST ∨
      req.bmRequestType &&& USB_REQ_RCPT_MASK ≠ USB_REQ_RCPT_INTERFACE ∨
      d.state ≠ DState.configured then (false, d)
  else
    match env.itf_descr req.wIndex with
    | none => (false, d)
    | some itf => if itf.bAlternateSetting = req.wValue % 256 then (true, d) else (false, d)

/-- `handle_ctrl_setup` (`usbd.c:306-555`): class/vendor delegation, then the
standard-request switch; returns whether the request was handled, and the
updated state. -/
def handle_ctrl_setup (u : Nat → EPCfg) (env : Env) (req : CtrlReq) (d : Dev) : Bool × Dev :=
  if req.bmRequestType &&& USB_REQ_TYPE_MASK = USB_REQ_TYPE_CLASS then
    match env.class_cb with
    | some cb => (cb req, d)
    | none => (false, d)
  else if req.bmRequestType &&& USB_REQ_TYPE_MASK = USB_REQ_TYPE_VENDOR then
    match env.vendor_cb with
    | some cb => (cb req, d)
    | none => (false, d)
  else if req.bRequest = USB_REQ_GET_STATUS then handle_get_status u env req d
  else if req.bRequest = USB_REQ_CLEAR_FEATURE then handle_clear_feature u req d
  else if req.bRequest = USB_REQ_SET_FEATURE then handle_set_feature u req d
  else if req.bRequest = USB_REQ_SET_ADDRESS then handle_set_address req d
  else if req.bRequest = USB_REQ_GET_DESCRIPTOR then handle_get_descriptor env req d
  else if req.bRequest = USB_REQ_GET_CONFIGURATION then handle_get_configuration env req d
  else if req.bRequest = USB_REQ_SET_CONFIGURATION then handle_set_configuration u env req d
  else if req.bRequest = USB_REQ_GET_INTERFACE then handle_get_interface env req d
  else if req.bRequest = USB_REQ_SET_INTERFACE then handle_set_interface env req d
  else (false, d)

/-! ## Event loop (`usbd_task`, `usbd.c:585-687`) -/

/-- Observable actions of one `usbd_task` invocation: which event class was
entered and which application callbacks were invoked. -/
inductive Ev where
  | wkup
  | susp
  | reset
  | sofRead
  | inCb (ept : Nat)
  | ctr (ept : Nat)
  | outCb (ept : Nat)
deriving DecidableEq, Repr

/-- STALL both EP0 directions (`usbd.c:660-661`). -/
def ep0_stall (d : Dev) : Dev := eprApply (eprApply d 0 w_tx_stall) 0 w_rx_stall

/-- EP0 `CTR_RX`/`SETUP` handling (`usbd.c:649-663`): clear `CTR_RX`, read
the SETUP packet, dispatch; on a handled host-to-device request enqueue a
zero-length IN; on failure STALL both directions. -/
def ep0_setup (u : Nat → EPCfg) (env : Env) (d : Dev) : Dev :=
  let d1 := eprApply d 0 w_clear_ctr_rx
  let o := usbd_out 0 8 d1
  if o.1 = 8 then
    let req := parseReq o.2.1
    let h := handle_ctrl_setup u env req o.2.2
    if h.1 then
      if req.bmRequestType &&& USB_REQ_DIR_MASK = USB_REQ_DIR_HOST_TO_DEVICE then
        usbd_control_in [] 0 req.wLength h.2
      else h.2
    else ep0_stall h.2
  else ep0_stall o.2.2

/-- The generic CTR tail (`usbd.c:679-686`): clear `CTR_RX` (invoking the
OUT callback) and clear `CTR_TX`. -/
def ctr_generic (env : Env) (ept : Nat) (d : Dev) : Dev × List Ev :=
  let s :=
    if d.epr ept &&& USB_EP_CTR_RX ≠ 0 then
      (eprApply d ept w_clear_ctr_rx, if env.out_cb then [Ev.outCb ept] else [])
    else (d, ([] : List Ev))
  if s.1.epr ept &&& USB_EP_CTR_TX ≠ 0 then (eprApply s.1 ept w_clear_ctr_tx, s.2) else s

/-- The CTR event section of `usbd_task` (`usbd.c:645-686`). -/
def task_ctr (u : Nat → EPCfg) (env : Env) (d : Dev) : Dev × List Ev :=
  let ept := d.istr &&& USB_ISTR_EP_ID
  if ept = 0 then
    if d.epr 0 &&& (USB_EP_CTR_RX ||| USB_EP_SETUP) ≠ 0 then
      (ep0_setup u env d, [Ev.ctr 0])
    else
      let s :=
        if d.epr 0 &&& USB_EP_CTR_TX ≠ 0 then
          let d1 := eprApply d 0 w_clear_ctr_tx
          let d2 :=
            if d1.set_address then
              { d1 with daddr := USB_DADDR_EF ||| d1.address, set_address := false,
                        state := DState.address }
            else d1
          let r := usbd_control_in_resume d2
          (r.2, !r.1)
        else (d, true)
      if s.2 then
        let g := ctr_generic env 0 s.1
        (g.1, Ev.ctr 0 :: g.2)
      else (s.1, [Ev.ctr 0])
  else
    let g := ctr_generic env ept d
    (g.1, Ev.ctr ept :: g.2)

/-- The BUS_RESET section of `usbd_task` (`usbd.c:608-628`). -/
def task_reset (u : Nat → EPCfg) (d : Dev) : Dev :=
  let d1 := { d with istr := clearBits d.istr USB_ISTR_RESET }
  let d2 := List.foldl (fun d i => eprApply d i w_disable) d1 [0, 1, 2, 3, 4, 5, 6, 7]
  let d3 := { d2 with state := DState.default, address := 0 }
  let d4 := { d3 with daddr := USB_DADDR_EF ||| d3.address }
  let d5 := eprApply d4 0 (w_set_bits (endpoints u 0).type)
  eprApply d5 0 w_reset_ep0

/-- The SOF readiness test (`usbd.c:638-639`), evaluated at the round-robin
cursor before it advances. -/
def sofReady (u : Nat → EPCfg) (d : Dev) : Bool :=
  (endpoints u d.current_ep).size_in != 0 &&
    (d.epr d.current_ep &&& (USB_EPTX_STAT ||| USB_EPADDR_FIELD) ==
      USB_EP_TX_NAK ||| d.current_ep)

/-- `usbd_task` (`usbd.c:585-687`), returning the new state and the trace of
observable actions of this invocation. -/
def usbd_task (u : Nat → EPCfg) (env : Env) (d : Dev) : Dev × List Ev :=
  let istr := d.istr &&&
    (USB_ISTR_CTR ||| USB_ISTR_WKUP ||| USB_ISTR_SUSP ||| USB_ISTR_RESET ||| USB_ISTR_SOF)
  if istr = 0 then (d, [])
  else if istr &&& USB_ISTR_WKUP ≠ 0 then
    ({ d with istr := clearBits d.istr (USB_ISTR_SUSP ||| USB_ISTR_WKUP),
              cntr := clearBits d.cntr USB_CNTR_FSUSP }, [Ev.wkup])
  else if istr &&& USB_ISTR_SUSP ≠ 0 then
    ({ d with istr := clearBits d.istr USB_ISTR_SUSP,
              cntr := d.cntr ||| USB_CNTR_FSUSP }, [Ev.susp])
  else if istr &&& USB_ISTR_RESET ≠ 0 then
    (task_reset u d, [Ev.reset])
  else if env.in_cb = true ∧ istr &&& USB_ISTR_SOF ≠ 0 then
    let ept := d.current_ep
    let d1 := { d with istr := clearBits d.istr USB_ISTR_SOF,
                       current_ep := if 8 ≤ d.current_ep + 1 then 1 else d.current_ep + 1 }
    if sofReady u d = true then (d1, [Ev.sofRead, Ev.inCb ept])
    else if istr &&& USB_ISTR_CTR ≠ 0 then
      let t := task_ctr u env d1
      (t.1, Ev.sofRead :: t.2)
    else (d1, [Ev.sofRead])
  else if istr &&& USB_ISTR_CTR ≠ 0 then
    task_ctr u env d
  else (d, [])

/-! ## Draining a control-IN continuation -/

/-- Apply `usbd_control_in_resume` repeatedly — once per EP0 IN completion —
until it returns `false`, collecting the packet (PMA EP0 IN payload) each
successful resume enqueued. -/
def drainResume (d : Dev) : List (List Nat) × Dev :=
  if h : d.ctrl_in_buf = none then ([], d)
  else
    let s := usbd_control_in_resume d
    let rest := drainResume s.2
    (s.2.pinData 0 :: rest.1, rest.2)
termination_by d.ctrl_in_buflen + (cond d.ctrl_in_buf.isSome 1 0)
decreasing_by
  rcases hb : d.ctrl_in_buf with _ | buf
  · exact absurd hb h
  · simp only [usbd_control_in_resume, hb, usbd_in]
    split <;> simp [USBD_EP0_SIZE] at * <;> omega

/-- The 64-byte chunking of the first `n` bytes of `buf` (the packet
sequence a control-IN transfer of `n` bytes produces). -/
def ctrl_chunks (buf : List Nat) (n : Nat) : List (List Nat) :=
  if USBD_EP0_SIZE < n then
    buf.take USBD_EP0_SIZE :: ctrl_chunks (buf.drop USBD_EP0_SIZE) (n - USBD_EP0_SIZE)
  else [buf.take n]
termination_by n
decreasing_by simp only [USBD_EP0_SIZE] at *; omega

/-! ## Bit-level facts about `epr_write` -/

theorem epr_write_bit15 (r w : Nat) :
    (epr_write r w).testBit 15 = (r.testBit 15 && w.testBit 15) := by
  simp only [epr_write, EPR_RC_W0_MASK, EPR_TOGGLE_MASK, EPR_RW_MASK, EPR_RO_MASK,
    Nat.testBit_or, Nat.testBit_and, Nat.testBit_xor]
  cases hr : r.testBit 15 <;> cases hw : w.testBit 15 <;> decide

theorem epr_write_bit7 (r w : Nat) :
    (epr_write r w).testBit 7 = (r.testBit 7 && w.testBit 7) := by
  simp only [epr_write, EPR_RC_W0_MASK, EPR_TOGGLE_MASK, EPR_RW_MASK, EPR_RO_MASK,
    Nat.testBit_or, Nat.testBit_and, Nat.testBit_xor]
  cases hr : r.testBit 7 <;> cases hw : w.testBit 7 <;> decide

theorem epr_write_bit4 (r w : Nat) :
    (epr_write r w).testBit 4 = (r.testBit 4 ^^ w.testBit 4) := by
  simp only [epr_write, EPR_RC_W0_MASK, EPR_TOGGLE_MASK, EPR_RW_MASK, EPR_RO_MASK,
    Nat.testBit_or, Nat.testBit_and, Nat.testBit_xor]
  cases hr : r.testBit 4 <;> cases hw : w.testBit 4 <;> decide

theorem epr_write_bit5 (r w : Nat) :
    (epr_write r w).testBit 5 = (r.testBit 5 ^^ w.testBit 5) := by
  simp only [epr_write, EPR_RC_W0_MASK, EPR_TOGGLE_MASK, EPR_RW_MASK, EPR_RO_MASK,
    Nat.testBit_or, Nat.testBit_and, Nat.testBit_xor]
  cases hr : r.testBit 5 <;> cases hw : w.testBit 5 <;> decide

theorem epr_write_bit12 (r w : Nat) :
    (epr_write r w).testBit 12 = (r.testBit 12 ^^ w.testBit 12) := by
  simp only [epr_write, EPR_RC_W0_MASK, EPR_TOGGLE_MASK, EPR_RW_MASK, EPR_RO_MASK,
    Nat.testBit_or, Nat.testBit_and, Nat.testBit_xor]
  cases hr : r.testBit 12 <;> cases hw : w.testBit 12 <;> decide

theorem epr_write_bit13 (r w : Nat) :
    (epr_write r w).testBit 13 = (r.testBit 13 ^^ w.testBit 13) := by
  simp only [epr_write, EPR_RC_W0_MASK, EPR_TOGGLE_MASK, EPR_RW_MASK, EPR_RO_MASK,
    Nat.testBit_or, Nat.testBit_and, Nat.testBit_xor]
  cases hr : r.testBit 13 <;> cases hw : w.testBit 13 <;> decide

/-- `STAT_TX` is VALID after the `usbd_in` arming write, whatever the prior
register value. -/
theorem statTx_after_tx_arm (r : Nat) :
    statTx (epr_write r (w_tx_arm r)) = USB_EP_TX_VALID := by
  simp only [statTx, epr_write_bit4, epr_write_bit5, w_tx_arm, USB_EP_TX_VALID,
    USB_EPREG_MASK, USB_EP_CTR_RX, USB_EP_SETUP, USB_EP_T_FIELD, USB_EP_KIND,
    USB_EP_CTR_TX, USB_EPADDR_FIELD, USB_EPTX_STAT, Nat.testBit_or, Nat.testBit_and,
    Nat.testBit_xor]
  cases h4 : r.testBit 4 <;> cases h5 : r.testBit 5 <;> decide

/-- `STAT_TX` is STALL after the stall write of `usbd.c:406/660`. -/
theorem statTx_after_tx_stall (r : Nat) :
    statTx (epr_write r (w_tx_stall r)) = USB_EP_TX_STALL := by
  simp only [statTx, epr_write_bit4, epr_write_bit5, w_tx_stall, USB_EP_TX_STALL,
    USB_EPREG_MASK, USB_EP_CTR_RX, USB_EP_SETUP, USB_EP_T_FIELD, USB_EP_KIND,
    USB_EP_CTR_TX, USB_EPADDR_FIELD, USB_EPTX_STAT, Nat.testBit_or, Nat.testBit_and,
    Nat.testBit_xor]
  cases h4 : r.testBit 4 <;> cases h5 : r.testBit 5 <;> decide

/-- `STAT_RX` is STALL after the stall write of `usbd.c:412/661`. -/
theorem statRx_after_rx_stall (r : Nat) :
    statRx (epr_write r (w_rx_stall r)) = USB_EP_RX_STALL := by
  simp only [statRx, epr_write_bit12, epr_write_bit13, w_rx_stall, USB_EP_RX_STALL,
    USB_EPREG_MASK, USB_EP_CTR_RX, USB_EP_SETUP, USB_EP_T_FIELD, USB_EP_KIND,
    USB_EP_CTR_TX, USB_EPADDR_FIELD, USB_EPRX_STAT, USB_EP_RX_VALID, Nat.testBit_or,
    Nat.testBit_and, Nat.testBit_xor]
  cases h12 : r.testBit 12 <;> cases h13 : r.testBit 13 <;> decide

/-- The RX-stall write leaves `STAT_TX` untouched (its mask excludes bits 5:4). -/
theorem statTx_after_rx_stall (r : Nat) :
    statTx (epr_write r (w_rx_stall r)) = statTx r := by
  simp only [statTx, epr_write_bit4, epr_write_bit5, w_rx_stall, USB_EP_RX_STALL,
    USB_EPREG_MASK, USB_EP_CTR_RX, USB_EP_SETUP, USB_EP_T_FIELD, USB_EP_KIND,
    USB_EP_CTR_TX, USB_EPADDR_FIELD, USB_EPRX_STAT, Nat.testBit_or, Nat.testBit_and,
    Nat.testBit_xor]
  cases h4 : r.testBit 4 <;> cases h5 : r.testBit 5 <;> decide

/-! ## Claim C5 — `EPnR` write discipline preserves the sticky `CTR` flags -/

/-- C5: every `EPnR` write the stack performs preserves the current values of
the sticky `CTR_TX`/`CTR_RX` bits, except for the writes that explicitly
target one of them with a masked clear-to-0 (`w_clear_ctr_rx`,
`w_clear_ctr_tx`, and the wholesale `w_disable` masked clear, which clear
exactly the targeted flags and preserve the other one); in particular none
of the STAT/DTOG toggle writes ever clears a set `CTR` flag.  Quantified
over every prior register value `r` and every `t` passed to the `|=` writes. -/
theorem epnr_ctr_write_discipline (r t : Nat) :
    (ctrRx (epr_write r (w_tx_arm r)) = ctrRx r ∧
      ctrTx (epr_write r (w_tx_arm r)) = ctrTx r) ∧
    (ctrRx (epr_write r (w_rx_arm r)) = ctrRx r ∧
      ctrTx (epr_write r (w_rx_arm r)) = ctrTx r) ∧
    (ctrRx (epr_write r (w_tx_nak_dtog r)) = ctrRx r ∧
      ctrTx (epr_write r (w_tx_nak_dtog r)) = ctrTx r) ∧
    (ctrRx (epr_write r (w_rx_valid_dtog r)) = ctrRx r ∧
      ctrTx (epr_write r (w_rx_valid_dtog r)) = ctrTx r) ∧
    (ctrRx (epr_write r (w_tx_stall r)) = ctrRx r ∧
      ctrTx (epr_write r (w_tx_stall r)) = ctrTx r) ∧
    (ctrRx (epr_write r (w_rx_stall r)) = ctrRx r ∧
      ctrTx (epr_write r (w_rx_stall r)) = ctrTx r) ∧
    (ctrRx (epr_write r (w_reset_ep0 r)) = ctrRx r ∧
      ctrTx (epr_write r (w_reset_ep0 r)) = ctrTx r) ∧
    (ctrRx (epr_write r (w_set_bits t r)) = ctrRx r ∧
      ctrTx (epr_write r (w_set_bits t r)) = ctrTx r) ∧
    (ctrRx (epr_write r (w_clear_ctr_rx r)) = false ∧
      ctrTx (epr_write r (w_clear_ctr_rx r)) = ctrTx r) ∧
    (ctrRx (epr_write r (w_clear_ctr_tx r)) = ctrRx r ∧
      ctrTx (epr_write r (w_clear_ctr_tx r)) = false) ∧
    (ctrRx (epr_write r (w_disable r)) = false ∧
      ctrTx (epr_write r (w_disable r)) = false) := by
  refine ⟨⟨?_, ?_⟩, ⟨?_, ?_⟩, ⟨?_, ?_⟩, ⟨?_, ?_⟩, ⟨?_, ?_⟩, ⟨?_, ?_⟩, ⟨?_, ?_⟩,
    ⟨?_, ?_⟩, ⟨?_, ?_⟩, ⟨?_, ?_⟩, ⟨?_, ?_⟩⟩ <;>
  · simp only [ctrRx, ctrTx, epr_write_bit15, epr_write_bit7, w_tx_arm, w_rx_arm,
      w_tx_nak_dtog, w_rx_valid_dtog, w_tx_stall, w_rx_stall, w_reset_ep0, w_set_bits,
      w_clear_ctr_rx, w_clear_ctr_tx, w_disable, USB_EPREG_MASK, USB_EP_CTR_RX,
      USB_EP_SETUP, USB_EP_T_FIELD, USB_EP_KIND, USB_EP_CTR_TX, USB_EPADDR_FIELD,
      USB_EPTX_STAT, USB_EPRX_STAT, USB_EP_DTOG_TX, USB_EP_DTOG_RX, USB_EP_TX_VALID,
      USB_EP_RX_VALID, USB_EP_TX_NAK, USB_EP_TX_STALL, USB_EP_RX_STALL,
      Nat.testBit_or, Nat.testBit_and, Nat.testBit_xor]
    cases h15 : r.testBit 15 <;> cases h7 : r.testBit 7 <;>
      cases g15 : t.testBit 15 <;> cases g7 : t.testBit 7 <;> decide

/-! ## Concrete fixtures for witnesses and counterexamples -/

/-- A configuration with every user endpoint disabled (all compile-time size
macros left at their 0 default, type BULK). -/
def uCfg0 : Nat → EPCfg := fun _ => ⟨USB_EP_BULK, 0, 0⟩

/-- A configuration with EP1 = INTERRUPT IN (8 bytes) and EP2 = BULK OUT
(64 bytes). -/
def uCfg1 : Nat → EPCfg := fun i =>
  if i = 1 then ⟨USB_EP_INTERRUPT, 8, 0⟩
  else if i = 2 then ⟨USB_EP_BULK, 0, 64⟩
  else ⟨USB_EP_BULK, 0, 0⟩

/-- An environment with no callbacks defined. -/
def envNone : Env :=
  { dev_descr := none, cfg_descr := none, itf_descr := fun _ => none,
    str_descr := fun _ _ => none, class_cb := none, vendor_cb := none,
    get_descr_itf_cb := none, in_cb := false, out_cb := false }

/-- The power-on state: all registers and PMA words clear, driver variables
at their initializers (`usbd.c:227-228`, `297-304`, `630`). -/
def dev0 : Dev :=
  { istr := 0, cntr := 0, daddr := 0, epr := fun _ => 0,
    pinAddr := fun _ => 0, pinCnt := fun _ => 0, pinData := fun _ => [],
    poutAddr := fun _ => 0, poutCnt := fun _ => 0, poutData := fun _ => [],
    state := DState.default, set_address := false, address := 0,
    ctrl_in_buf := none, ctrl_in_buflen := 0, current_ep := 1 }

/-! ## Claim C6 — the PMA OUT `COUNT` encoding -/

/-- The bytes consumed by endpoints `i, i+1, ..., i+k-1` of the PMA
watermark. -/
def pma_spanFrom (u : Nat → EPCfg) (i k : Nat) : Nat :=
  ((List.range k).map
    (fun j => (endpoints u (i + j)).size_in + (endpoints u (i + j)).size_out)).sum

theorem pma_spanFrom_succ (u : Nat → EPCfg) (i k : Nat) :
    pma_spanFrom u i (k + 1) =
      ((endpoints u i).size_in + (endpoints u i).size_out) + pma_spanFrom u (i + 1) k := by
  simp only [pma_spanFrom, List.range_succ_eq_map, List.map_cons, List.map_map, List.sum_cons,
    Nat.add_zero]
  congr 1
  refine congrArg List.sum (List.map_congr_left ?_)
  intro j hj
  show (endpoints u (i + (j + 1))).size_in + (endpoints u (i + (j + 1))).size_out
      = (endpoints u ((i + 1) + j)).size_in + (endpoints u ((i + 1) + j)).size_out
  have hsh : i + (j + 1) = (i + 1) + j := by omega
  rw [hsh]

theorem pma_init_go_preserve (u : Nat → EPCfg) (count : Nat) :
    ∀ mem i d j, j < i →
      (pma_init_go u d mem i count).pinAddr j = d.pinAddr j ∧
      (pma_init_go u d mem i count).pinCnt j = d.pinCnt j ∧
      (pma_init_go u d mem i count).poutAddr j = d.poutAddr j ∧
      (pma_init_go u d mem i count).poutCnt j = d.poutCnt j := by
  induction count with
  | zero => intro mem i d j _; simp [pma_init_go]
  | succ c ih =>
    intro mem i d j hj
    simp only [pma_init_go]
    rcases ih (mem + (endpoints u i).size_in + (endpoints u i).size_out) (i + 1) _ j
      (by omega) with ⟨h1, h2, h3, h4⟩
    rw [h1, h2, h3, h4]
    have hne : j ≠ i := by omega
    simp [Function.update_noteq hne]

theorem pma_init_go_spec (u : Nat → EPCfg) (count : Nat) :
    ∀ mem i d k, k < count →
      (pma_init_go u d mem i count).pinAddr (i + k) = mem + pma_spanFrom u i k ∧
      (pma_init_go u d mem i count).pinCnt (i + k) = 0 ∧
      (pma_init_go u d mem i count).poutAddr (i + k) =
        mem + pma_spanFrom u i k + (endpoints u (i + k)).size_in ∧
      (pma_init_go u d mem i count).poutCnt (i + k) =
        pma_cnt_out (endpoints u (i + k)).size_out := by
  induction count with
  | zero => intro mem i d k hk; omega
  | succ c ih =>
    intro mem i d k hk
    match k with
    | 0 =>
      simp only [pma_init_go, Nat.add_zero]
      rcases pma_init_go_preserve u c
          (mem + (endpoints u i).size_in + (endpoints u i).size_out) (i + 1) _ i
          (by omega) with ⟨h1, h2, h3, h4⟩
      rw [h1, h2, h3, h4]
      simp [pma_spanFrom, Nat.add_assoc]
    | j + 1 =>
      simp only [pma_init_go]
      have hik : i + (j + 1) = (i + 1) + j := by omega
      rcases ih (mem + (endpoints u i).size_in + (endpoints u i).size_out) (i + 1) _ j
        (by omega) with ⟨h1, h2, h3, h4⟩
      rw [hik, h1, h2, h3, h4, pma_spanFrom_succ]
      omega

/-- C6 (counterexample): the claim's `COUNT` formula
`BL_SIZE_BIT | ((size_out / 32) << 10)` is `0x8800` for the
always-present EP0 OUT slot (`size_out = 64`), but `pma_init` writes
`0x8001` (`BLSIZE | ((size_out >> 6) & 0b11111)`, with no `<< 10`). -/
theorem pma_init_count_cx :
    (endpoints uCfg0 0).size_out = 64 ∧
    (pma_init uCfg0 dev0).poutCnt 0 = 0x8001 ∧
    USB_COUNT0_RX_BLSIZE ||| ((64 / 32) <<< 10) = 0x8800 ∧
    (pma_init uCfg0 dev0).poutCnt 0 ≠ USB_COUNT0_RX_BLSIZE ||| ((64 / 32) <<< 10) := by
  decide

/-- C6 (amended): for every endpoint index `i < 8`, `pma_init` writes the OUT
descriptor count as `(size_out >> 1) & 0b11111` when `size_out ≤ 62`, and as
`BLSIZE | ((size_out >> 6) & 0b11111)` otherwise (no `<< 10` shift); the OUT
descriptor address is the running watermark `64 + Σ_{j<i}(size_in_j +
size_out_j) + size_in_i`, the IN address is `64 + Σ_{j<i}(size_in_j +
size_out_j)`, and the IN count is 0. -/
theorem pma_init_out_descr (u : Nat → EPCfg) (d : Dev) (i : Nat) (hi : i < 8) :
    (pma_init u d).poutCnt i = pma_cnt_out (endpoints u i).size_out ∧
    (pma_init u d).poutAddr i = 64 + pma_spanFrom u 0 i + (endpoints u i).size_in ∧
    (pma_init u d).pinAddr i = 64 + pma_spanFrom u 0 i ∧
    (pma_init u d).pinCnt i = 0 := by
  rcases pma_init_go_spec u 8 64 0 d i hi with ⟨h1, h2, h3, h4⟩
  simp only [Nat.zero_add] at h1 h2 h3 h4
  exact ⟨h4, h3, h1, h2⟩

/-- C6 witness: the amended theorem applied at EP0 of the all-default
configuration. -/
theorem pma_init_out_descr_witness :
    0 < 8 ∧
    ((pma_init uCfg0 dev0).poutCnt 0 = pma_cnt_out (endpoints uCfg0 0).size_out ∧
      (pma_init uCfg0 dev0).poutAddr 0 = 64 + pma_spanFrom uCfg0 0 0 +
        (endpoints uCfg0 0).size_in ∧
      (pma_init uCfg0 dev0).pinAddr 0 = 64 + pma_spanFrom uCfg0 0 0 ∧
      (pma_init uCfg0 dev0).pinCnt 0 = 0) :=
  ⟨by decide, pma_init_out_descr uCfg0 dev0 0 (by decide)⟩

/-! ## Claim C2 — multi-packet control-IN round trip -/

theorem usbd_in_preserve (ept : Nat) (buf : List Nat) (len : Nat) (d : Dev) :
    (usbd_in ept buf len d).2.pinAddr = d.pinAddr ∧
    (usbd_in ept buf len d).2.ctrl_in_buf = d.ctrl_in_buf ∧
    (usbd_in ept buf len d).2.ctrl_in_buflen = d.ctrl_in_buflen ∧
    (usbd_in ept buf len d).2.state = d.state ∧
    (usbd_in ept buf len d).2.set_address = d.set_address ∧
    (usbd_in ept buf len d).2.address = d.address ∧
    (usbd_in ept buf len d).2.daddr = d.daddr ∧
    (usbd_in ept buf len d).2.istr = d.istr ∧
    (usbd_in ept buf len d).2.current_ep = d.current_ep := by
  simp only [usbd_in]
  split
  · simp
  · split
    · simp
    · simp [eprApply]

theorem usbd_in_success (ept : Nat) (buf : List Nat) (len : Nat) (d : Dev)
    (h8 : ept < 8) (ha : d.pinAddr ept ≠ 0) :
    (usbd_in ept buf len d).1 = true ∧
    (usbd_in ept buf len d).2.pinData ept = buf.take len ∧
    (usbd_in ept buf len d).2.pinCnt ept = len ∧
    (usbd_in ept buf len d).2.epr ept = epr_write (d.epr ept) (w_tx_arm (d.epr ept)) := by
  simp only [usbd_in]
  rw [if_neg (by omega), if_neg ha]
  simp [eprApply]

theorem ctrl_chunks_ne_nil (buf : List Nat) (n : Nat) : ctrl_chunks buf n ≠ [] := by
  rw [ctrl_chunks]
  split <;> simp

theorem ctrl_chunks_flatten (n : Nat) :
    ∀ buf : List Nat, (ctrl_chunks buf n).flatten = buf.take n := by
  induction n using Nat.strong_induction_on with
  | _ n ih =>
    intro buf
    rw [ctrl_chunks]
    split
    · next hlt =>
      rw [List.flatten_cons, ih (n - USBD_EP0_SIZE) (by simp [USBD_EP0_SIZE] at hlt ⊢; omega)]
      rw [← List.take_add]
      congr 1
      simp only [USBD_EP0_SIZE] at hlt ⊢
      omega
    · simp

theorem ctrl_chunks_length_le (n : Nat) :
    ∀ (buf : List Nat), ∀ p ∈ ctrl_chunks buf n, p.length ≤ USBD_EP0_SIZE := by
  induction n using Nat.strong_induction_on with
  | _ n ih =>
    intro buf p hp
    rw [ctrl_chunks] at hp
    split at hp
    · next hlt =>
      rcases List.mem_cons.mp hp with rfl | hp
      · simp [List.length_take]
      · exact ih (n - USBD_EP0_SIZE) (by simp [USBD_EP0_SIZE] at hlt ⊢; omega) _ p hp
    · next hlt =>
      rcases List.mem_singleton.mp hp with rfl
      simp only [List.length_take]
      omega

theorem ctrl_chunks_dropLast_length (n : Nat) :
    ∀ buf : List Nat, n ≤ buf.length →
      ∀ p ∈ (ctrl_chunks buf n).dropLast, p.length = USBD_EP0_SIZE := by
  induction n using Nat.strong_induction_on with
  | _ n ih =>
    intro buf hn p hp
    rw [ctrl_chunks] at hp
    split at hp
    · next hlt =>
      rw [List.dropLast_cons_of_ne_nil (ctrl_chunks_ne_nil _ _)] at hp
      rcases List.mem_cons.mp hp with rfl | hp
      · simp only [List.length_take, USBD_EP0_SIZE] at hlt ⊢
        omega
      · refine ih (n - USBD_EP0_SIZE) (by simp [USBD_EP0_SIZE] at hlt ⊢; omega) _ ?_ p hp
        simp only [List.length_drop]
        omega
    · simp at hp

theorem drainResume_nil (d : Dev) (h : d.ctrl_in_buf = none) : drainResume d = ([], d) := by
  rw [drainResume, dif_pos h]

theorem drainResume_cons (d : Dev) (h : ¬ d.ctrl_in_buf = none) :
    drainResume d =
      ((usbd_control_in_resume d).2.pinData 0 :: (drainResume (usbd_control_in_resume d).2).1,
        (drainResume (usbd_control_in_resume d).2).2) := by
  rw [drainResume, dif_neg h]

theorem usbd_control_in_resume_step (buf : List Nat) (d : Dev)
    (hb : d.ctrl_in_buf = some buf) (ha : d.pinAddr 0 ≠ 0) :
    (usbd_control_in_resume d).1 = true ∧
    (usbd_control_in_resume d).2.ctrl_in_buf =
      (if USBD_EP0_SIZE < d.ctrl_in_buflen then some (buf.drop USBD_EP0_SIZE) else none) ∧
    (usbd_control_in_resume d).2.ctrl_in_buflen =
      (if USBD_EP0_SIZE < d.ctrl_in_buflen then d.ctrl_in_buflen - USBD_EP0_SIZE else 0) ∧
    (usbd_control_in_resume d).2.pinAddr = d.pinAddr ∧
    (usbd_control_in_resume d).2.pinData 0 =
      buf.take (if USBD_EP0_SIZE < d.ctrl_in_buflen then USBD_EP0_SIZE else d.ctrl_in_buflen) := by
  rcases usbd_in_preserve 0 buf
      (if USBD_EP0_SIZE < d.ctrl_in_buflen then USBD_EP0_SIZE else d.ctrl_in_buflen) d with
    ⟨hpa, _, _, _, _, _, _, _, _⟩
  rcases usbd_in_success 0 buf
      (if USBD_EP0_SIZE < d.ctrl_in_buflen then USBD_EP0_SIZE else d.ctrl_in_buflen) d
      (by omega) ha with ⟨_, hdata, _, _⟩
  simp only [usbd_control_in_resume, hb]
  exact ⟨trivial, trivial, trivial, hpa, hdata⟩

theorem drainResume_spec (n : Nat) :
    ∀ (buf : List Nat) (d : Dev), d.ctrl_in_buf = some buf → d.ctrl_in_buflen = n →
      d.pinAddr 0 ≠ 0 →
      (drainResume d).1 = ctrl_chunks buf n ∧
      (drainResume d).2.ctrl_in_buf = none ∧
      (drainResume d).2.ctrl_in_buflen = 0 ∧
      (drainResume d).2.pinAddr 0 = d.pinAddr 0 := by
  induction n using Nat.strong_induction_on with
  | _ n ih =>
    intro buf d hb hn ha
    rcases usbd_control_in_resume_step buf d hb ha with ⟨-, hcb, hcl, hpa, hdata⟩
    rw [drainResume_cons d (by simp [hb])]
    by_cases hlt : USBD_EP0_SIZE < n
    · have hlt2 : USBD_EP0_SIZE < d.ctrl_in_buflen := hn ▸ hlt
      rw [if_pos hlt2] at hcb hcl hdata
      rcases ih (n - USBD_EP0_SIZE) (by simp only [USBD_EP0_SIZE] at hlt ⊢; omega)
          (buf.drop USBD_EP0_SIZE)
          (usbd_control_in_resume d).2 hcb (by rw [hcl, hn]) (by rw [hpa]; exact ha) with
        ⟨h1, h2, h3, h4⟩
      refine ⟨?_, h2, h3, by rw [h4, hpa]⟩
      rw [ctrl_chunks, if_pos hlt, h1, hdata]
    · have hlt2 : ¬ USBD_EP0_SIZE < d.ctrl_in_buflen := hn ▸ hlt
      rw [if_neg hlt2] at hcb hcl hdata
      rw [drainResume_nil _ hcb]
      refine ⟨?_, hcb, hcl, by rw [hpa]⟩
      rw [ctrl_chunks, if_neg hlt, hdata, hn]

theorem usbd_control_in_step (buf : List Nat) (buflen reqlen : Nat) (d : Dev)
    (ha : d.pinAddr 0 ≠ 0) :
    (usbd_control_in buf buflen reqlen d).ctrl_in_buf =
      (if USBD_EP0_SIZE < min reqlen buflen then some (buf.drop USBD_EP0_SIZE) else none) ∧
    (usbd_control_in buf buflen reqlen d).ctrl_in_buflen =
      (if USBD_EP0_SIZE < min reqlen buflen then min reqlen buflen - USBD_EP0_SIZE else 0) ∧
    (usbd_control_in buf buflen reqlen d).pinAddr = d.pinAddr ∧
    (usbd_control_in buf buflen reqlen d).pinData 0 =
      buf.take (if USBD_EP0_SIZE < min reqlen buflen then USBD_EP0_SIZE
        else min reqlen buflen) := by
  have htot : (if reqlen < buflen then reqlen else buflen) = min reqlen buflen := by
    split <;> omega
  rcases usbd_in_preserve 0 buf
      (if USBD_EP0_SIZE < (if reqlen < buflen then reqlen else buflen) then USBD_EP0_SIZE
        else (if reqlen < buflen then reqlen else buflen)) d with
    ⟨hpa, _, _, _, _, _, _, _, _⟩
  rcases usbd_in_success 0 buf
      (if USBD_EP0_SIZE < (if reqlen < buflen then reqlen else buflen) then USBD_EP0_SIZE
        else (if reqlen < buflen then reqlen else buflen)) d (by omega) ha with
    ⟨_, hdata, _, _⟩
  rw [htot] at hpa hdata
  simp only [usbd_control_in, htot]
  exact ⟨trivial, trivial, hpa, hdata⟩

/-- C2: starting a control-IN transfer with `usbd_control_in` and applying
`usbd_control_in_resume` once per EP0 IN completion until it returns `false`
transmits exactly the first `min reqlen buflen` bytes of `buf` in order,
split at 64-byte boundaries (every packet is 64 bytes except possibly the
final shorter one); afterwards the continuation state is cleared
(`ctrl_in_buf = none`, `ctrl_in_buflen = 0`) and one more
`usbd_control_in_resume` returns `false`. -/
theorem usbd_control_in_round_trip (buf : List Nat) (buflen reqlen : Nat) (d : Dev)
    (hlen : buflen = buf.length) (haddr : d.pinAddr 0 ≠ 0) :
    ((usbd_control_in buf buflen reqlen d).pinData 0
        :: (drainResume (usbd_control_in buf buflen reqlen d)).1) =
      ctrl_chunks buf (min reqlen buflen) ∧
    ((usbd_control_in buf buflen reqlen d).pinData 0
        :: (drainResume (usbd_control_in buf buflen reqlen d)).1).flatten =
      buf.take (min reqlen buflen) ∧
    (∀ p ∈ ((usbd_control_in buf buflen reqlen d).pinData 0
        :: (drainResume (usbd_control_in buf buflen reqlen d)).1).dropLast,
      p.length = USBD_EP0_SIZE) ∧
    (∀ p ∈ ((usbd_control_in buf buflen reqlen d).pinData 0
        :: (drainResume (usbd_control_in buf buflen reqlen d)).1),
      p.length ≤ USBD_EP0_SIZE) ∧
    (drainResume (usbd_control_in buf buflen reqlen d)).2.ctrl_in_buf = none ∧
    (drainResume (usbd_control_in buf buflen reqlen d)).2.ctrl_in_buflen = 0 ∧
    (usbd_control_in_resume (drainResume (usbd_control_in buf buflen reqlen d)).2).1
      = false := by
  rcases usbd_control_in_step buf buflen reqlen d haddr with ⟨hcb, hcl, hpa, hdata⟩
  have hkey :
      ((usbd_control_in buf buflen reqlen d).pinData 0
          :: (drainResume (usbd_control_in buf buflen reqlen d)).1) =
        ctrl_chunks buf (min reqlen buflen) ∧
      (drainResume (usbd_control_in buf buflen reqlen d)).2.ctrl_in_buf = none ∧
      (drainResume (usbd_control_in buf buflen reqlen d)).2.ctrl_in_buflen = 0 := by
    by_cases hlt : USBD_EP0_SIZE < min reqlen buflen
    · rw [if_pos hlt] at hcb hcl hdata
      rcases drainResume_spec (min reqlen buflen - USBD_EP0_SIZE)
          (buf.drop USBD_EP0_SIZE) (usbd_control_in buf buflen reqlen d) hcb hcl
          (by rw [hpa]; exact haddr) with ⟨h1, h2, h3, _⟩
      refine ⟨?_, h2, h3⟩
      rw [ctrl_chunks, if_pos hlt, h1, hdata]
    · rw [if_neg hlt] at hcb hcl hdata
      rw [drainResume_nil _ hcb]
      refine ⟨?_, hcb, hcl⟩
      rw [ctrl_chunks, if_neg hlt, hdata]
  have hle : min reqlen buflen ≤ buf.length := by omega
  refine ⟨hkey.1, ?_, ?_, ?_, hkey.2.1, hkey.2.2, ?_⟩
  · rw [hkey.1, ctrl_chunks_flatten]
  · rw [hkey.1]
    exact ctrl_chunks_dropLast_length _ buf hle
  · rw [hkey.1]
    exact ctrl_chunks_length_le _ buf
  · simp [usbd_control_in_resume, hkey.2.1]

/-- A device whose EP0 IN descriptor is armed (address 64, as laid out by
`pma_init`). -/
def devPin : Dev := { dev0 with pinAddr := (fun i => if i = 0 then 64 else 0) }

/-- C2 witness: a 70-byte buffer with a 100-byte request yields packets
`[64, 6]`, concatenating back to the buffer. -/
theorem usbd_control_in_round_trip_witness :
    (70 : Nat) = (List.range 70).length ∧ devPin.pinAddr 0 ≠ 0 ∧
    (((usbd_control_in (List.range 70) 70 100 devPin).pinData 0
        :: (drainResume (usbd_control_in (List.range 70) 70 100 devPin)).1) =
      ctrl_chunks (List.range 70) (min 100 70) ∧
    ((usbd_control_in (List.range 70) 70 100 devPin).pinData 0
        :: (drainResume (usbd_control_in (List.range 70) 70 100 devPin)).1).flatten =
      (List.range 70).take (min 100 70) ∧
    (∀ p ∈ ((usbd_control_in (List.range 70) 70 100 devPin).pinData 0
        :: (drainResume (usbd_control_in (List.range 70) 70 100 devPin)).1).dropLast,
      p.length = USBD_EP0_SIZE) ∧
    (∀ p ∈ ((usbd_control_in (List.range 70) 70 100 devPin).pinData 0
        :: (drainResume (usbd_control_in (List.range 70) 70 100 devPin)).1),
      p.length ≤ USBD_EP0_SIZE) ∧
    (drainResume (usbd_control_in (List.range 70) 70 100 devPin)).2.ctrl_in_buf = none ∧
    (drainResume (usbd_control_in (List.range 70) 70 100 devPin)).2.ctrl_in_buflen = 0 ∧
    (usbd_control_in_resume
      (drainResume (usbd_control_in (List.range 70) 70 100 devPin)).2).1 = false) :=
  ⟨by simp, by decide,
    usbd_control_in_round_trip (List.range 70) 70 100 devPin (by simp) (by decide)⟩

/-! ## Claim C8 — `usbd_in` failure conditions -/

theorem ctrRx_after_tx_arm (r : Nat) : ctrRx (epr_write r (w_tx_arm r)) = ctrRx r := by
  simp only [ctrRx, epr_write_bit15, w_tx_arm, USB_EP_TX_VALID, USB_EPREG_MASK,
    USB_EP_CTR_RX, USB_EP_SETUP, USB_EP_T_FIELD, USB_EP_KIND, USB_EP_CTR_TX,
    USB_EPADDR_FIELD, USB_EPTX_STAT, Nat.testBit_or, Nat.testBit_and, Nat.testBit_xor]
  cases h15 : r.testBit 15 <;> decide

theorem ctrTx_after_tx_arm (r : Nat) : ctrTx (epr_write r (w_tx_arm r)) = ctrTx r := by
  simp only [ctrTx, epr_write_bit7, w_tx_arm, USB_EP_TX_VALID, USB_EPREG_MASK,
    USB_EP_CTR_RX, USB_EP_SETUP, USB_EP_T_FIELD, USB_EP_KIND, USB_EP_CTR_TX,
    USB_EPADDR_FIELD, USB_EPTX_STAT, Nat.testBit_or, Nat.testBit_and, Nat.testBit_xor]
  cases h7 : r.testBit 7 <;> decide

/-- A device whose EP1 IN descriptor is armed. -/
def devPin1 : Dev := { dev0 with pinAddr := (fun i => if i = 1 then 200 else 0) }

/-- C8 (counterexample): with EP1 configured as an 8-byte INTERRUPT IN
endpoint and its descriptor armed, `usbd_in 1 buf 9` has `len > size_in` yet
returns `true` — the code performs no length check, so "returns false exactly
when ... len > size_in" is false. -/
theorem usbd_in_size_check_cx :
    (endpoints uCfg1 1).size_in = 8 ∧
    (usbd_in 1 (List.range 9) 9 devPin1).1 = true := by decide

/-- C8 (amended): `usbd_in ept buf len` returns `false` exactly when
`ept ≥ 8` or the endpoint's IN descriptor address is zero — the length is
not checked (`len ≤ size_in` is the caller's obligation); in all other cases
it copies the first `len` bytes of `buf` into the PMA slot, writes `len` to
the IN count, arms `STAT_TX` to VALID with a CTR-preserving toggle write,
and returns `true`; on failure the state is unchanged. -/
theorem usbd_in_result (ept : Nat) (buf : List Nat) (len : Nat) (d : Dev) :
    ((usbd_in ept buf len d).1 = false ↔ (8 ≤ ept ∨ d.pinAddr ept = 0)) ∧
    ((usbd_in ept buf len d).1 = true →
      (usbd_in ept buf len d).2.pinData ept = buf.take len ∧
      (usbd_in ept buf len d).2.pinCnt ept = len ∧
      statTx ((usbd_in ept buf len d).2.epr ept) = USB_EP_TX_VALID ∧
      ctrRx ((usbd_in ept buf len d).2.epr ept) = ctrRx (d.epr ept) ∧
      ctrTx ((usbd_in ept buf len d).2.epr ept) = ctrTx (d.epr ept)) ∧
    ((usbd_in ept buf len d).1 = false → (usbd_in ept buf len d).2 = d) := by
  by_cases h8 : 8 ≤ ept
  · simp [usbd_in, h8]
  · by_cases ha : d.pinAddr ept = 0
    · simp [usbd_in, h8, ha]
    · rcases usbd_in_success ept buf len d (by omega) ha with ⟨ht, hdata, hcnt, hepr⟩
      refine ⟨by simp [ht, h8, ha], ?_, by simp [ht]⟩
      intro _
      exact ⟨hdata, hcnt, by rw [hepr]; exact statTx_after_tx_arm _,
        by rw [hepr]; exact ctrRx_after_tx_arm _,
        by rw [hepr]; exact ctrTx_after_tx_arm _⟩

/-- C8 witness: the amended theorem at EP1 of `devPin1` with a 1-byte
payload. -/
theorem usbd_in_result_witness :
    (usbd_in 1 [5] 1 devPin1).1 = true ∧
    ((usbd_in 1 [5] 1 devPin1).2.pinData 1 = [5].take 1 ∧
      (usbd_in 1 [5] 1 devPin1).2.pinCnt 1 = 1 ∧
      statTx ((usbd_in 1 [5] 1 devPin1).2.epr 1) = USB_EP_TX_VALID ∧
      ctrRx ((usbd_in 1 [5] 1 devPin1).2.epr 1) = ctrRx (devPin1.epr 1) ∧
      ctrTx ((usbd_in 1 [5] 1 devPin1).2.epr 1) = ctrTx (devPin1.epr 1)) :=
  ⟨by decide, (usbd_in_result 1 [5] 1 devPin1).2.1 (by decide)⟩

/-! ## Claim C1 — SET_ADDRESS deferral -/

theorem land127_eq (A : Nat) (h : A < 128) : A &&& 127 = A := by
  have e : (127 : Nat) = 2 ^ 7 - 1 := by norm_num
  rw [e]
  exact Nat.and_pow_two_sub_one_of_lt_two_pow h

theorem ctr_generic_daddr (env : Env) (ept : Nat) (d : Dev) :
    (ctr_generic env ept d).1.daddr = d.daddr := by
  simp only [ctr_generic]
  repeat' split
  all_goals simp [eprApply]

theorem ctr_generic_set_address (env : Env) (ept : Nat) (d : Dev) :
    (ctr_generic env ept d).1.set_address = d.set_address := by
  simp only [ctr_generic]
  repeat' split
  all_goals simp [eprApply]

theorem ctr_generic_state (env : Env) (ept : Nat) (d : Dev) :
    (ctr_generic env ept d).1.state = d.state := by
  simp only [ctr_generic]
  repeat' split
  all_goals simp [eprApply]

theorem ctr_generic_address (env : Env) (ept : Nat) (d : Dev) :
    (ctr_generic env ept d).1.address = d.address := by
  simp only [ctr_generic]
  repeat' split
  all_goals simp [eprApply]

theorem ctr_generic_ctrl_in_buf (env : Env) (ept : Nat) (d : Dev) :
    (ctr_generic env ept d).1.ctrl_in_buf = d.ctrl_in_buf := by
  simp only [ctr_generic]
  repeat' split
  all_goals simp [eprApply]

theorem ctr_generic_ctrl_in_buflen (env : Env) (ept : Nat) (d : Dev) :
    (ctr_generic env ept d).1.ctrl_in_buflen = d.ctrl_in_buflen := by
  simp only [ctr_generic]
  repeat' split
  all_goals simp [eprApply]

/-- When only the CTR interrupt flag is pending, `usbd_task` is exactly its
CTR section. -/
theorem usbd_task_ctr_only (u : Nat → EPCfg) (env : Env) (d : Dev)
    (histr : d.istr = USB_ISTR_CTR) :
    usbd_task u env d = task_ctr u env d := by
  simp +decide [usbd_task, histr, USB_ISTR_CTR, USB_ISTR_WKUP, USB_ISTR_SUSP,
    USB_ISTR_RESET, USB_ISTR_SOF]

/-- EP0 CTR_TX handling with the pending-address latch set (`usbd.c:665-676`):
the device-address register is written with `EF|address`, the latch is
cleared and the state becomes Address. -/
theorem task_ctr_tx_latch (u : Nat → EPCfg) (env : Env) (d : Dev)
    (hsa : d.set_address = true)
    (hcb : d.ctrl_in_buf = none)
    (hE : d.istr &&& USB_ISTR_EP_ID = 0)
    (hrx : d.epr 0 &&& (USB_EP_CTR_RX ||| USB_EP_SETUP) = 0)
    (htx : d.epr 0 &&& USB_EP_CTR_TX ≠ 0) :
    (task_ctr u env d).1.daddr = USB_DADDR_EF ||| d.address ∧
    (task_ctr u env d).1.set_address = false ∧
    (task_ctr u env d).1.state = DState.address := by
  simp only [task_ctr, hE]
  simp +decide [hrx, htx, hsa, hcb, eprApply, usbd_control_in_resume,
    ctr_generic_daddr, ctr_generic_set_address, ctr_generic_state]

/-- EP0 CTR_TX handling with the pending-address latch clear: the
device-address register and the device state are untouched. -/
theorem task_ctr_tx_nolatch (u : Nat → EPCfg) (env : Env) (d : Dev)
    (hsa : d.set_address = false)
    (hcb : d.ctrl_in_buf = none)
    (hE : d.istr &&& USB_ISTR_EP_ID = 0)
    (hrx : d.epr 0 &&& (USB_EP_CTR_RX ||| USB_EP_SETUP) = 0)
    (htx : d.epr 0 &&& USB_EP_CTR_TX ≠ 0) :
    (task_ctr u env d).1.daddr = d.daddr ∧
    (task_ctr u env d).1.set_address = false ∧
    (task_ctr u env d).1.state = d.state := by
  simp only [task_ctr, hE]
  simp +decide [hrx, htx, hsa, hcb, eprApply, usbd_control_in_resume,
    ctr_generic_daddr, ctr_generic_set_address, ctr_generic_state]

/-- A `usbd_task` invocation that dispatches a SET_ADDRESS(A) SETUP on EP0
in the Default or Address state: the device-address register keeps its prior
value, the pending-address latch is set to `A`, the zero-length status IN is
queued, and the continuation is clear. -/
theorem setup_set_address_step (u : Nat → EPCfg) (env : Env) (d : Dev) (A : Nat)
    (hA : A ≠ 0) (hA7 : A < 128)
    (hstate : d.state = DState.default ∨ d.state = DState.address)
    (histr : d.istr = USB_ISTR_CTR)
    (hepr0 : d.epr 0 = USB_EP_SETUP)
    (hpin : d.pinAddr 0 = 64)
    (hpoutA : d.poutAddr 0 = 66)
    (hpoutC : d.poutCnt 0 = 8)
    (hdata : d.poutData 0 = [0, 5, A, 0, 0, 0, 0, 0]) :
    ((usbd_task u env d).1).daddr = d.daddr ∧
    ((usbd_task u env d).1).set_address = true ∧
    ((usbd_task u env d).1).address = A ∧
    ((usbd_task u env d).1).pinCnt 0 = 0 ∧
    statTx (((usbd_task u env d).1).epr 0) = USB_EP_TX_VALID ∧
    ((usbd_task u env d).1).ctrl_in_buf = none := by
  have hl := land127_eq A hA7
  rcases hstate with hs | hs <;>
    simp +decide [usbd_task, task_ctr, ep0_setup, ctr_generic, usbd_out, usbd_control_in,
      usbd_in, handle_ctrl_setup, eprApply, parseReq, histr, hepr0, hpin, hpoutA, hpoutC,
      handle_set_address, hdata, hs, hA, hl,
      USB_ISTR_CTR, USB_ISTR_WKUP, USB_ISTR_SUSP, USB_ISTR_RESET, USB_ISTR_SOF,
      USB_ISTR_EP_ID, USB_EP_CTR_RX, USB_EP_SETUP, USB_EP_CTR_TX, USB_COUNT_RX_MASK,
      USB_REQ_TYPE_MASK, USB_REQ_TYPE_CLASS, USB_REQ_TYPE_VENDOR, USB_REQ_DIR_MASK,
      USB_REQ_DIR_HOST_TO_DEVICE, USB_REQ_DIR_DEVICE_TO_HOST, USB_REQ_RCPT_MASK,
      USB_REQ_RCPT_DEVICE, USB_REQ_GET_STATUS, USB_REQ_CLEAR_FEATURE, USB_REQ_SET_FEATURE,
      USB_REQ_SET_ADDRESS, USBD_EP0_SIZE, USB_DADDR_ADD]

/-- C1: after a SET_ADDRESS SETUP with value `A` (`A ≠ 0`, 7-bit, device in
Default or Address state) is dispatched and ACKed by one `usbd_task`
invocation, the device-address register still holds its prior value and the
pending-address latch holds `A`; the next invocation that handles the EP0 IN
completion (CTR_TX, raised by the hardware in `d'`, which carries the driver
fields over from the first invocation's result) writes the device-address
register with `EF|A`, clears the latch, and moves the state to Address. -/
theorem set_address_deferral (u : Nat → EPCfg) (env : Env) (d d' : Dev) (A : Nat)
    (hA : A ≠ 0) (hA7 : A < 128)
    (hstate : d.state = DState.default ∨ d.state = DState.address)
    (histr : d.istr = USB_ISTR_CTR)
    (hepr0 : d.epr 0 = USB_EP_SETUP)
    (hpin : d.pinAddr 0 = 64)
    (hpoutA : d.poutAddr 0 = 66)
    (hpoutC : d.poutCnt 0 = 8)
    (hdata : d.poutData 0 = [0, 5, A, 0, 0, 0, 0, 0])
    (hsa' : d'.set_address = ((usbd_task u env d).1).set_address)
    (haddr' : d'.address = ((usbd_task u env d).1).address)
    (hcb' : d'.ctrl_in_buf = ((usbd_task u env d).1).ctrl_in_buf)
    (histr' : d'.istr = USB_ISTR_CTR)
    (hepr0' : d'.epr 0 = USB_EP_CTR_TX) :
    ((usbd_task u env d).1).daddr = d.daddr ∧
    ((usbd_task u env d).1).set_address = true ∧
    ((usbd_task u env d).1).address = A ∧
    ((usbd_task u env d).1).pinCnt 0 = 0 ∧
    statTx (((usbd_task u env d).1).epr 0) = USB_EP_TX_VALID ∧
    ((usbd_task u env d').1).daddr = USB_DADDR_EF ||| A ∧
    ((usbd_task u env d').1).set_address = false ∧
    ((usbd_task u env d').1).state = DState.address := by
  rcases setup_set_address_step u env d A hA hA7 hstate histr hepr0 hpin hpoutA hpoutC
    hdata with ⟨h1, h2, h3, h4, h5, h6⟩
  rw [usbd_task_ctr_only u env d' histr']
  rcases task_ctr_tx_latch u env d' (by rw [hsa', h2]) (by rw [hcb', h6])
      (by simp +decide [histr', USB_ISTR_CTR, USB_ISTR_EP_ID])
      (by simp +decide [hepr0', USB_EP_CTR_TX, USB_EP_CTR_RX, USB_EP_SETUP])
      (by simp +decide [hepr0', USB_EP_CTR_TX]) with ⟨g1, g2, g3⟩
  exact ⟨h1, h2, h3, h4, h5, by rw [g1, haddr', h3], g2, g3⟩

/-- The SET_ADDRESS(0x42) SETUP scenario: EP0 SETUP pending, the 8 request
bytes in the EP0 OUT slot, prior device-address register value 99. -/
def devC1 : Dev :=
  { dev0 with
    istr := USB_ISTR_CTR
    epr := (fun i => if i = 0 then USB_EP_SETUP else 0)
    pinAddr := (fun i => if i = 0 then 64 else 0)
    poutAddr := (fun i => if i = 0 then 66 else 0)
    poutCnt := (fun i => if i = 0 then 8 else 0)
    poutData := (fun i => if i = 0 then [0, 5, 0x42, 0, 0, 0, 0, 0] else [])
    daddr := 99 }

/-- The state at the next invocation: hardware has raised EP0 CTR_TX after
the status IN completed. -/
def devC1b : Dev :=
  { (usbd_task uCfg0 envNone devC1).1 with
    istr := USB_ISTR_CTR
    epr := (fun i => if i = 0 then USB_EP_CTR_TX else 0) }

/-- C1 witness: the deferral theorem at address 0x42 from the Default state. -/
theorem set_address_deferral_witness :
    ((usbd_task uCfg0 envNone devC1).1).daddr = devC1.daddr ∧
    ((usbd_task uCfg0 envNone devC1).1).set_address = true ∧
    ((usbd_task uCfg0 envNone devC1).1).address = 0x42 ∧
    ((usbd_task uCfg0 envNone devC1).1).pinCnt 0 = 0 ∧
    statTx (((usbd_task uCfg0 envNone devC1).1).epr 0) = USB_EP_TX_VALID ∧
    ((usbd_task uCfg0 envNone devC1b).1).daddr = USB_DADDR_EF ||| 0x42 ∧
    ((usbd_task uCfg0 envNone devC1b).1).set_address = false ∧
    ((usbd_task uCfg0 envNone devC1b).1).state = DState.address :=
  set_address_deferral uCfg0 envNone devC1 devC1b 0x42 (by decide) (by decide)
    (Or.inl (by decide)) (by decide) (by decide) (by decide) (by decide) (by decide)
    (by decide) (by decide) (by decide) (by decide) (by decide) (by decide)

/-! ## Claim C9 — SET_ADDRESS in the Configured state -/

/-- The SET_ADDRESS(0x42) scenario of `devC1`, but with the device
Configured. -/
def devC9 : Dev := { devC1 with state := DState.configured }

/-- The state at the next invocation after `devC9`'s status IN completed. -/
def devC9b : Dev :=
  { (usbd_task uCfg0 envNone devC9).1 with
    istr := USB_ISTR_CTR
    epr := (fun i => if i = 0 then USB_EP_CTR_TX else 0) }

/-- C9 (counterexample): in the Configured state a SET_ADDRESS(0x42) request
is ACKed (the zero-length status IN is queued), yet after the status-stage
EP0 IN completion the device is still Configured — not in the Address state
the claimed table row prescribes — and the device-address register still
holds its prior value 99. -/
theorem set_address_in_configured_cx :
    devC9.state = DState.configured ∧
    ((usbd_task uCfg0 envNone devC9).1).pinCnt 0 = 0 ∧
    statTx (((usbd_task uCfg0 envNone devC9).1).epr 0) = USB_EP_TX_VALID ∧
    ((usbd_task uCfg0 envNone devC9b).1).state = DState.configured ∧
    ((usbd_task uCfg0 envNone devC9b).1).state ≠ DState.address ∧
    ((usbd_task uCfg0 envNone devC9b).1).daddr = 99 := by decide

/-- A `usbd_task` invocation dispatching SET_ADDRESS(A) in the Configured
state: ACKed but ignored — no latch is set, the address register and state
are unchanged. -/
theorem setup_set_address_configured_step (u : Nat → EPCfg) (env : Env) (d : Dev) (A : Nat)
    (hstate : d.state = DState.configured)
    (hsa0 : d.set_address = false)
    (histr : d.istr = USB_ISTR_CTR)
    (hepr0 : d.epr 0 = USB_EP_SETUP)
    (hpin : d.pinAddr 0 = 64)
    (hpoutA : d.poutAddr 0 = 66)
    (hpoutC : d.poutCnt 0 = 8)
    (hdata : d.poutData 0 = [0, 5, A, 0, 0, 0, 0, 0]) :
    ((usbd_task u env d).1).daddr = d.daddr ∧
    ((usbd_task u env d).1).set_address = false ∧
    ((usbd_task u env d).1).state = DState.configured ∧
    ((usbd_task u env d).1).pinCnt 0 = 0 ∧
    statTx (((usbd_task u env d).1).epr 0) = USB_EP_TX_VALID ∧
    ((usbd_task u env d).1).ctrl_in_buf = none := by
  simp +decide [usbd_task, task_ctr, ep0_setup, ctr_generic, usbd_out, usbd_control_in,
    usbd_in, handle_ctrl_setup, eprApply, parseReq, histr, hepr0, hpin, hpoutA, hpoutC,
    handle_set_address, hdata, hstate, hsa0,
    USB_ISTR_CTR, USB_ISTR_WKUP, USB_ISTR_SUSP, USB_ISTR_RESET, USB_ISTR_SOF,
    USB_ISTR_EP_ID, USB_EP_CTR_RX, USB_EP_SETUP, USB_EP_CTR_TX, USB_COUNT_RX_MASK,
    USB_REQ_TYPE_MASK, USB_REQ_TYPE_CLASS, USB_REQ_TYPE_VENDOR, USB_REQ_DIR_MASK,
    USB_REQ_DIR_HOST_TO_DEVICE, USB_REQ_DIR_DEVICE_TO_HOST, USB_REQ_RCPT_MASK,
    USB_REQ_RCPT_DEVICE, USB_REQ_GET_STATUS, USB_REQ_CLEAR_FEATURE, USB_REQ_SET_FEATURE,
    USB_REQ_SET_ADDRESS, USBD_EP0_SIZE, USB_DADDR_ADD]

/-- C9 (amended): when the device is Configured (with no stale latch pending)
and a SET_ADDRESS request with address ≠ 0 is ACKed, the pending-address
latch is not set and upon the status-stage EP0 IN completion the device
remains Configured with the device-address register unchanged — the
Configured row of the state machine maps SET_ADDRESS ACK to Configured,
not to Address. -/
theorem set_address_in_configured (u : Nat → EPCfg) (env : Env) (d d' : Dev) (A : Nat)
    (hA : A ≠ 0) (hA7 : A < 128)
    (hstate : d.state = DState.configured)
    (hsa0 : d.set_address = false)
    (histr : d.istr = USB_ISTR_CTR)
    (hepr0 : d.epr 0 = USB_EP_SETUP)
    (hpin : d.pinAddr 0 = 64)
    (hpoutA : d.poutAddr 0 = 66)
    (hpoutC : d.poutCnt 0 = 8)
    (hdata : d.poutData 0 = [0, 5, A, 0, 0, 0, 0, 0])
    (hsa' : d'.set_address = ((usbd_task u env d).1).set_address)
    (hdaddr' : d'.daddr = ((usbd_task u env d).1).daddr)
    (hstate' : d'.state = ((usbd_task u env d).1).state)
    (hcb' : d'.ctrl_in_buf = ((usbd_task u env d).1).ctrl_in_buf)
    (histr' : d'.istr = USB_ISTR_CTR)
    (hepr0' : d'.epr 0 = USB_EP_CTR_TX) :
    ((usbd_task u env d).1).set_address = false ∧
    ((usbd_task u env d).1).pinCnt 0 = 0 ∧
    statTx (((usbd_task u env d).1).epr 0) = USB_EP_TX_VALID ∧
    ((usbd_task u env d').1).daddr = d.daddr ∧
    ((usbd_task u env d').1).set_address = false ∧
    ((usbd_task u env d').1).state = DState.configured := by
  rcases setup_set_address_configured_step u env d A hstate hsa0 histr hepr0 hpin hpoutA
    hpoutC hdata with ⟨h1, h2, h3, h4, h5, h6⟩
  rw [usbd_task_ctr_only u env d' histr']
  rcases task_ctr_tx_nolatch u env d' (by rw [hsa', h2]) (by rw [hcb', h6])
      (by simp +decide [histr', USB_ISTR_CTR, USB_ISTR_EP_ID])
      (by simp +decide [hepr0', USB_EP_CTR_TX, USB_EP_CTR_RX, USB_EP_SETUP])
      (by simp +decide [hepr0', USB_EP_CTR_TX]) with ⟨g1, g2, g3⟩
  exact ⟨h2, h4, h5, by rw [g1, hdaddr', h1], g2, by rw [g3, hstate', h3]⟩

/-- C9 witness: the amended theorem at the `devC9` scenario. -/
theorem set_address_in_configured_witness :
    ((usbd_task uCfg0 envNone devC9).1).set_address = false ∧
    ((usbd_task uCfg0 envNone devC9).1).pinCnt 0 = 0 ∧
    statTx (((usbd_task uCfg0 envNone devC9).1).epr 0) = USB_EP_TX_VALID ∧
    ((usbd_task uCfg0 envNone devC9b).1).daddr = devC9.daddr ∧
    ((usbd_task uCfg0 envNone devC9b).1).set_address = false ∧
    ((usbd_task uCfg0 envNone devC9b).1).state = DState.configured :=
  set_address_in_configured uCfg0 envNone devC9 devC9b 0x42 (by decide) (by decide)
    (by decide) (by decide) (by decide) (by decide) (by decide) (by decide) (by decide)
    (by decide) (by decide) (by decide) (by decide) (by decide) (by decide) (by decide)

/-! ## Claim C4 — BUS_RESET effects -/

theorem istr_mask_wkup (a : Nat) :
    (a &&& (USB_ISTR_CTR ||| USB_ISTR_WKUP ||| USB_ISTR_SUSP ||| USB_ISTR_RESET |||
      USB_ISTR_SOF)) &&& USB_ISTR_WKUP = a &&& USB_ISTR_WKUP := by
  rw [Nat.and_assoc]
  congr 1

theorem istr_mask_susp (a : Nat) :
    (a &&& (USB_ISTR_CTR ||| USB_ISTR_WKUP ||| USB_ISTR_SUSP ||| USB_ISTR_RESET |||
      USB_ISTR_SOF)) &&& USB_ISTR_SUSP = a &&& USB_ISTR_SUSP := by
  rw [Nat.and_assoc]
  congr 1

theorem istr_mask_reset (a : Nat) :
    (a &&& (USB_ISTR_CTR ||| USB_ISTR_WKUP ||| USB_ISTR_SUSP ||| USB_ISTR_RESET |||
      USB_ISTR_SOF)) &&& USB_ISTR_RESET = a &&& USB_ISTR_RESET := by
  rw [Nat.and_assoc]
  congr 1

theorem istr_mask_sof (a : Nat) :
    (a &&& (USB_ISTR_CTR ||| USB_ISTR_WKUP ||| USB_ISTR_SUSP ||| USB_ISTR_RESET |||
      USB_ISTR_SOF)) &&& USB_ISTR_SOF = a &&& USB_ISTR_SOF := by
  rw [Nat.and_assoc]
  congr 1

theorem istr_mask_ctr (a : Nat) :
    (a &&& (USB_ISTR_CTR ||| USB_ISTR_WKUP ||| USB_ISTR_SUSP ||| USB_ISTR_RESET |||
      USB_ISTR_SOF)) &&& USB_ISTR_CTR = a &&& USB_ISTR_CTR := by
  rw [Nat.and_assoc]
  congr 1

/-- A device with a bus reset pending while a 3-byte control-IN continuation
is half way through. -/
def devC4 : Dev :=
  { dev0 with
    istr := USB_ISTR_RESET
    ctrl_in_buf := some [1, 2, 3]
    ctrl_in_buflen := 3
    state := DState.configured
    address := 5
    daddr := 0x85 }

/-- C4 (counterexample): processing BUS_RESET resets the state and address,
but the control-IN continuation (`ctrl_in_buf`, `ctrl_in_buflen`) is left
untouched — it is not reset to `(none, 0)` as claimed. -/
theorem bus_reset_keeps_continuation_cx :
    ((usbd_task uCfg0 envNone devC4).1).state = DState.default ∧
    ((usbd_task uCfg0 envNone devC4).1).address = 0 ∧
    ((usbd_task uCfg0 envNone devC4).1).ctrl_in_buf = some [1, 2, 3] ∧
    ((usbd_task uCfg0 envNone devC4).1).ctrl_in_buf ≠ none ∧
    ((usbd_task uCfg0 envNone devC4).1).ctrl_in_buflen = 3 := by decide

/-- C4 (amended): processing a BUS_RESET event resets the device state to
Default and the address to 0 (writing `EF|0` to the device-address
register), but leaves the control-IN continuation state exactly as it was:
a half-completed control-IN transfer is not abandoned by the reset handler. -/
theorem bus_reset_effects (u : Nat → EPCfg) (env : Env) (d : Dev)
    (hW : d.istr &&& USB_ISTR_WKUP = 0)
    (hS : d.istr &&& USB_ISTR_SUSP = 0)
    (hR : d.istr &&& USB_ISTR_RESET ≠ 0) :
    ((usbd_task u env d).1).state = DState.default ∧
    ((usbd_task u env d).1).address = 0 ∧
    ((usbd_task u env d).1).daddr = USB_DADDR_EF ∧
    ((usbd_task u env d).1).ctrl_in_buf = d.ctrl_in_buf ∧
    ((usbd_task u env d).1).ctrl_in_buflen = d.ctrl_in_buflen := by
  have hne : d.istr &&& (USB_ISTR_CTR ||| USB_ISTR_WKUP ||| USB_ISTR_SUSP |||
      USB_ISTR_RESET ||| USB_ISTR_SOF) ≠ 0 := by
    intro h0
    apply hR
    have h1 := congrArg (· &&& USB_ISTR_RESET) h0
    simp only [istr_mask_reset] at h1
    simpa using h1
  simp [usbd_task, task_reset, eprApply, istr_mask_wkup, istr_mask_susp, istr_mask_reset,
    hW, hS, hR, hne]

/-- C4 witness: the amended theorem at the `devC4` scenario. -/
theorem bus_reset_effects_witness :
    ((usbd_task uCfg0 envNone devC4).1).state = DState.default ∧
    ((usbd_task uCfg0 envNone devC4).1).address = 0 ∧
    ((usbd_task uCfg0 envNone devC4).1).daddr = USB_DADDR_EF ∧
    ((usbd_task uCfg0 envNone devC4).1).ctrl_in_buf = devC4.ctrl_in_buf ∧
    ((usbd_task uCfg0 envNone devC4).1).ctrl_in_buflen = devC4.ctrl_in_buflen :=
  bus_reset_effects uCfg0 envNone devC4 (by decide) (by decide) (by decide)

/-! ## Claim C7 — EP0 status phase: zero-length ACK or double STALL -/

theorem usbd_control_in_pinAddr (buf : List Nat) (buflen reqlen : Nat) (d : Dev) :
    (usbd_control_in buf buflen reqlen d).pinAddr = d.pinAddr := by
  simp only [usbd_control_in, usbd_in]
  repeat' split
  all_goals simp [eprApply]

theorem cfg_arm_pinAddr (u : Nat → EPCfg) (d : Dev) (i : Nat) :
    (cfg_arm u d i).pinAddr = d.pinAddr := by
  simp only [cfg_arm]
  repeat' split
  all_goals simp [eprApply]

theorem handle_get_status_pinAddr (u : Nat → EPCfg) (env : Env) (req : CtrlReq) (d : Dev) :
    (handle_get_status u env req d).2.pinAddr = d.pinAddr := by
  simp only [handle_get_status]
  repeat' split
  all_goals simp [usbd_control_in_pinAddr]

theorem handle_clear_feature_pinAddr (u : Nat → EPCfg) (req : CtrlReq) (d : Dev) :
    (handle_clear_feature u req d).2.pinAddr = d.pinAddr := by
  simp only [handle_clear_feature]
  repeat' split
  all_goals simp [eprApply]

theorem handle_set_feature_pinAddr (u : Nat → EPCfg) (req : CtrlReq) (d : Dev) :
    (handle_set_feature u req d).2.pinAddr = d.pinAddr := by
  simp only [handle_set_feature]
  repeat' split
  all_goals simp [eprApply]

theorem handle_set_address_pinAddr (req : CtrlReq) (d : Dev) :
    (handle_set_address req d).2.pinAddr = d.pinAddr := by
  simp only [handle_set_address]
  repeat' split
  all_goals simp

theorem handle_get_descriptor_pinAddr (env : Env) (req : CtrlReq) (d : Dev) :
    (handle_get_descriptor env req d).2.pinAddr = d.pinAddr := by
  simp only [handle_get_descriptor, write_device_descriptor, write_config_descriptor,
    write_string_descriptor]
  repeat' split
  all_goals simp [usbd_control_in_pinAddr]

theorem handle_get_configuration_pinAddr (env : Env) (req : CtrlReq) (d : Dev) :
    (handle_get_configuration env req d).2.pinAddr = d.pinAddr := by
  simp only [handle_get_configuration]
  repeat' split
  all_goals simp [usbd_control_in_pinAddr]

theorem handle_set_configuration_pinAddr (u : Nat → EPCfg) (env : Env) (req : CtrlReq)
    (d : Dev) :
    (handle_set_configuration u env req d).2.pinAddr = d.pinAddr := by
  simp only [handle_set_configuration]
  repeat' split
  all_goals simp [eprApply, cfg_arm_pinAddr, List.foldl_cons, List.foldl_nil]

theorem handle_get_interface_pinAddr (env : Env) (req : CtrlReq) (d : Dev) :
    (handle_get_interface env req d).2.pinAddr = d.pinAddr := by
  simp only [handle_get_interface]
  repeat' split
  all_goals simp [usbd_control_in_pinAddr]

theorem handle_set_interface_pinAddr (env : Env) (req : CtrlReq) (d : Dev) :
    (handle_set_interface env req d).2.pinAddr = d.pinAddr := by
  simp only [handle_set_interface]
  repeat' split
  all_goals simp

set_option maxHeartbeats 2000000 in
theorem handle_ctrl_setup_pinAddr (u : Nat → EPCfg) (env : Env) (req : CtrlReq) (d : Dev) :
    (handle_ctrl_setup u env req d).2.pinAddr = d.pinAddr := by
  simp only [handle_ctrl_setup]
  repeat' split
  all_goals simp [handle_get_status_pinAddr, handle_clear_feature_pinAddr,
    handle_set_feature_pinAddr, handle_set_address_pinAddr, handle_get_descriptor_pinAddr,
    handle_get_configuration_pinAddr, handle_set_configuration_pinAddr,
    handle_get_interface_pinAddr, handle_set_interface_pinAddr]

theorem ep0_stall_stat (x : Dev) :
    statTx ((ep0_stall x).epr 0) = USB_EP_TX_STALL ∧
    statRx ((ep0_stall x).epr 0) = USB_EP_RX_STALL := by
  simp only [ep0_stall, eprApply, Function.update_same]
  exact ⟨by rw [statTx_after_rx_stall, statTx_after_tx_stall],
    statRx_after_rx_stall _⟩

theorem task_ctr_setup (u : Nat → EPCfg) (env : Env) (d : Dev)
    (hE : d.istr &&& USB_ISTR_EP_ID = 0)
    (hrx : d.epr 0 &&& (USB_EP_CTR_RX ||| USB_EP_SETUP) ≠ 0) :
    task_ctr u env d = (ep0_setup u env d, [Ev.ctr 0]) := by
  simp +decide [task_ctr, hE, hrx]

/-- C7: in a `usbd_task` invocation that receives an EP0 SETUP, if the
dispatch returns handled and the request's direction bit is host-to-device,
the engine enqueues a zero-length IN on EP0 (IN count 0, `STAT_TX` armed to
VALID); if the dispatch returns not handled, both EP0 directions are set to
STALL. -/
theorem ep0_setup_status_phase (u : Nat → EPCfg) (env : Env) (d : Dev)
    (histr : d.istr = USB_ISTR_CTR)
    (hepr0 : d.epr 0 = USB_EP_SETUP)
    (hpin : d.pinAddr 0 = 64)
    (hpoutA : d.poutAddr 0 = 66)
    (hpoutC : d.poutCnt 0 = 8) :
    ((handle_ctrl_setup u env (parseReq ((d.poutData 0).take 8))
        (usbd_out 0 8 (eprApply d 0 w_clear_ctr_rx)).2.2).1 = true →
      (parseReq ((d.poutData 0).take 8)).bmRequestType &&& USB_REQ_DIR_MASK =
        USB_REQ_DIR_HOST_TO_DEVICE →
      ((usbd_task u env d).1).pinCnt 0 = 0 ∧
      statTx (((usbd_task u env d).1).epr 0) = USB_EP_TX_VALID) ∧
    ((handle_ctrl_setup u env (parseReq ((d.poutData 0).take 8))
        (usbd_out 0 8 (eprApply d 0 w_clear_ctr_rx)).2.2).1 = false →
      statTx (((usbd_task u env d).1).epr 0) = USB_EP_TX_STALL ∧
      statRx (((usbd_task u env d).1).epr 0) = USB_EP_RX_STALL) := by
  rw [usbd_task_ctr_only u env d histr,
    task_ctr_setup u env d (by simp +decide [histr, USB_ISTR_CTR, USB_ISTR_EP_ID])
      (by simp +decide [hepr0, USB_EP_SETUP, USB_EP_CTR_RX])]
  have ho : usbd_out 0 8 (eprApply d 0 w_clear_ctr_rx) =
      (8, (d.poutData 0).take 8, eprApply (eprApply d 0 w_clear_ctr_rx) 0 w_rx_arm) := by
    simp +decide [usbd_out, eprApply, hpoutA, hpoutC, USB_COUNT_RX_MASK,
      show (8 &&& 1023 : Nat) = 8 from by decide]
  have hpin2 : (handle_ctrl_setup u env (parseReq ((d.poutData 0).take 8))
      (eprApply (eprApply d 0 w_clear_ctr_rx) 0 w_rx_arm)).2.pinAddr 0 = 64 := by
    rw [handle_ctrl_setup_pinAddr]
    simp [eprApply, hpin]
  constructor
  · intro hh hdir
    rcases usbd_in_success 0 [] 0
        (handle_ctrl_setup u env (parseReq ((d.poutData 0).take 8))
          (eprApply (eprApply d 0 w_clear_ctr_rx) 0 w_rx_arm)).2 (by omega)
        (by rw [hpin2]; omega) with ⟨_, _, hcnt, hepr⟩
    rw [ho] at hh
    simp +decide [ep0_setup, ho, hh, hdir]
    refine ⟨?_, ?_⟩
    · simp only [usbd_control_in]
      simpa using hcnt
    · simp only [usbd_control_in]
      simpa [statTx_after_tx_arm] using congrArg (fun r => statTx r) hepr
  · intro hh
    rw [ho] at hh
    simp +decide [ep0_setup, ho, hh]
    exact ep0_stall_stat _

/-- C7 witness: the status-phase theorem at the `devC1` SET_ADDRESS scenario
(a handled host-to-device request). -/
theorem ep0_setup_status_phase_witness :
    (handle_ctrl_setup uCfg0 envNone (parseReq ((devC1.poutData 0).take 8))
        (usbd_out 0 8 (eprApply devC1 0 w_clear_ctr_rx)).2.2).1 = true ∧
    (parseReq ((devC1.poutData 0).take 8)).bmRequestType &&& USB_REQ_DIR_MASK =
      USB_REQ_DIR_HOST_TO_DEVICE ∧
    ((usbd_task uCfg0 envNone devC1).1).pinCnt 0 = 0 ∧
    statTx (((usbd_task uCfg0 envNone devC1).1).epr 0) = USB_EP_TX_VALID :=
  ⟨by decide, by decide,
    ((ep0_setup_status_phase uCfg0 envNone devC1 (by decide) (by decide) (by decide)
      (by decide) (by decide)).1 (by decide) (by decide)).1,
    ((ep0_setup_status_phase uCfg0 envNone devC1 (by decide) (by decide) (by decide)
      (by decide) (by decide)).1 (by decide) (by decide)).2⟩

/-! ## Claim C10 — endpoint-recipient requests depend on `wIndex` only
through `wIndex & 0x87` -/

theorem land87_7 (x : Nat) : (x &&& 0x87) &&& 0x7 = x &&& 0x7 := by
  rw [Nat.and_assoc]
  congr 1

theorem land87_80 (x : Nat) : (x &&& 0x87) &&& 0x80 = x &&& 0x80 := by
  rw [Nat.and_assoc]
  congr 1

theorem handle_get_status_wIndex (u : Nat → EPCfg) (env : Env) (req : CtrlReq) (d : Dev)
    (hrcpt : req.bmRequestType &&& USB_REQ_RCPT_MASK = USB_REQ_RCPT_ENDPOINT) :
    handle_get_status u env { req with wIndex := req.wIndex &&& 0x87 } d =
      handle_get_status u env req d := by
  simp +decide [handle_get_status, get_status_bit, hrcpt, USB_DESCR_EPT_ADDR_DIR_IN,
    land87_7 req.wIndex, land87_80 req.wIndex]

theorem handle_clear_feature_wIndex (u : Nat → EPCfg) (req : CtrlReq) (d : Dev)
    (hrcpt : req.bmRequestType &&& USB_REQ_RCPT_MASK = USB_REQ_RCPT_ENDPOINT) :
    handle_clear_feature u { req with wIndex := req.wIndex &&& 0x87 } d =
      handle_clear_feature u req d := by
  simp +decide [handle_clear_feature, hrcpt, USB_DESCR_EPT_ADDR_DIR_IN,
    land87_7 req.wIndex, land87_80 req.wIndex]

theorem handle_set_feature_wIndex (u : Nat → EPCfg) (req : CtrlReq) (d : Dev)
    (hrcpt : req.bmRequestType &&& USB_REQ_RCPT_MASK = USB_REQ_RCPT_ENDPOINT) :
    handle_set_feature u { req with wIndex := req.wIndex &&& 0x87 } d =
      handle_set_feature u req d := by
  simp +decide [handle_set_feature, hrcpt, USB_DESCR_EPT_ADDR_DIR_IN,
    land87_7 req.wIndex, land87_80 req.wIndex]

/-- C10: for the endpoint-recipient standard requests GET_STATUS,
CLEAR_FEATURE and SET_FEATURE, `handle_ctrl_setup` depends on `wIndex` only
through its low three bits and the IN-direction bit: replacing `wIndex` by
`wIndex & 0x87` yields the identical verdict and state (e.g. an endpoint
address of 9 acts on endpoint 1). -/
theorem endpoint_request_wIndex_masked (u : Nat → EPCfg) (env : Env) (req : CtrlReq)
    (d : Dev)
    (htype : req.bmRequestType &&& USB_REQ_TYPE_MASK = USB_REQ_TYPE_STANDARD)
    (hrcpt : req.bmRequestType &&& USB_REQ_RCPT_MASK = USB_REQ_RCPT_ENDPOINT)
    (hreq : req.bRequest = USB_REQ_GET_STATUS ∨ req.bRequest = USB_REQ_CLEAR_FEATURE ∨
      req.bRequest = USB_REQ_SET_FEATURE) :
    handle_ctrl_setup u env { req with wIndex := req.wIndex &&& 0x87 } d =
      handle_ctrl_setup u env req d := by
  rcases hreq with h | h | h
  · have e := handle_get_status_wIndex u env req d hrcpt
    rw [h] at e
    simp +decide [handle_ctrl_setup, h, htype, e]
  · have e := handle_clear_feature_wIndex u req d hrcpt
    rw [h] at e
    simp +decide [handle_ctrl_setup, h, htype, e]
  · have e := handle_set_feature_wIndex u req d hrcpt
    rw [h] at e
    simp +decide [handle_ctrl_setup, h, htype, e]

/-- A configured device for the `wIndex` masking witness. -/
def devCfgd : Dev := { dev0 with state := DState.configured }

/-- C10 witness: SET_FEATURE(ENDPOINT_HALT) with endpoint address 0x89 acts
exactly like endpoint address 0x89 & 0x87 (IN endpoint 1). -/
theorem endpoint_request_wIndex_masked_witness :
    handle_ctrl_setup uCfg1 envNone
        { bmRequestType := 0x02, bRequest := USB_REQ_SET_FEATURE, wValue := 0,
          wIndex := (0x89 : Nat) &&& 0x87, wLength := 0 } devCfgd =
      handle_ctrl_setup uCfg1 envNone
        { bmRequestType := 0x02, bRequest := USB_REQ_SET_FEATURE, wValue := 0,
          wIndex := 0x89, wLength := 0 } devCfgd :=
  endpoint_request_wIndex_masked uCfg1 envNone
    { bmRequestType := 0x02, bRequest := USB_REQ_SET_FEATURE, wValue := 0,
      wIndex := 0x89, wLength := 0 } devCfgd (by decide) (by decide)
    (Or.inr (Or.inr (by decide)))

/-! ## Claim C3 — event priority and the SOF fall-through -/

/-- An environment with the IN callback defined. -/
def envIn : Env := { envNone with in_cb := true }

/-- SOF and CTR pending simultaneously; the round-robin cursor points at
EP1, whose IN direction is not configured. -/
def devC3 : Dev := { dev0 with istr := USB_ISTR_SOF ||| USB_ISTR_CTR }

/-- C3 (counterexample): with SOF and CTR both pending and no ready IN
endpoint at the cursor, a single `usbd_task` invocation consumes the SOF
flag (it is cleared from ISTR) and still processes the pending CTR event —
two event classes in one call, refuting "a call that consumes the SOF flag
returns without also processing a pending CTR event". -/
theorem sof_ctr_same_call_cx :
    devC3.istr &&& USB_ISTR_SOF ≠ 0 ∧
    devC3.istr &&& USB_ISTR_CTR ≠ 0 ∧
    Ev.sofRead ∈ (usbd_task uCfg0 envIn devC3).2 ∧
    (usbd_task uCfg0 envIn devC3).1.istr &&& USB_ISTR_SOF = 0 ∧
    Ev.ctr 0 ∈ (usbd_task uCfg0 envIn devC3).2 := by decide

theorem istr_all_ne_of (a X : Nat)
    (habs : (a &&& (USB_ISTR_CTR ||| USB_ISTR_WKUP ||| USB_ISTR_SUSP ||| USB_ISTR_RESET |||
      USB_ISTR_SOF)) &&& X = a &&& X)
    (h : a &&& X ≠ 0) :
    a &&& (USB_ISTR_CTR ||| USB_ISTR_WKUP ||| USB_ISTR_SUSP ||| USB_ISTR_RESET |||
      USB_ISTR_SOF) ≠ 0 := by
  intro h0
  apply h
  rw [← habs, h0, Nat.zero_and]

/-- Clearing the SOF flag does not change the EP_ID field of ISTR. -/
theorem clearBits_sof_epid (x : Nat) :
    clearBits x USB_ISTR_SOF &&& USB_ISTR_EP_ID = x &&& USB_ISTR_EP_ID := by
  apply Nat.eq_of_testBit_eq
  intro i
  simp only [clearBits, USB_ISTR_SOF, USB_ISTR_EP_ID, Nat.testBit_and, Nat.testBit_xor]
  by_cases hb : Nat.testBit 15 i
  · have hi4 : i < 4 := by
      by_contra hge
      rw [Nat.testBit_lt_two_pow (lt_of_lt_of_le (by norm_num : (15 : Nat) < 2 ^ 4)
        (Nat.pow_le_pow_right (by norm_num) (by omega)))] at hb
      simp at hb
    have h512 : Nat.testBit 512 i = false := by interval_cases i <;> decide
    simp [h512, hb]
  · simp [hb]

/-- The head of every CTR-section trace is the `ctr` marker for the endpoint
index reported by ISTR. -/
theorem task_ctr_trace_head (u : Nat → EPCfg) (env : Env) (d : Dev) :
    Ev.ctr (d.istr &&& USB_ISTR_EP_ID) ∈ (task_ctr u env d).2 := by
  simp only [task_ctr]
  repeat' split
  all_goals simp_all

/-- C3 (amended): event classes are examined in strict priority order
WKUP > SUSP > RESET > SOF > CTR, and WKUP, SUSP and RESET are each processed
exclusively (the call returns immediately).  A call that consumes the SOF
flag and finds the round-robin endpoint ready delivers the IN callback and
returns without processing CTR; but a call that consumes the SOF flag
without a ready endpoint falls through and additionally processes a pending
CTR event in the same invocation. -/
theorem usbd_task_event_priority (u : Nat → EPCfg) (env : Env) (d : Dev) :
    (d.istr &&& USB_ISTR_WKUP ≠ 0 → (usbd_task u env d).2 = [Ev.wkup]) ∧
    (d.istr &&& USB_ISTR_WKUP = 0 → d.istr &&& USB_ISTR_SUSP ≠ 0 →
      (usbd_task u env d).2 = [Ev.susp]) ∧
    (d.istr &&& USB_ISTR_WKUP = 0 → d.istr &&& USB_ISTR_SUSP = 0 →
      d.istr &&& USB_ISTR_RESET ≠ 0 → (usbd_task u env d).2 = [Ev.reset]) ∧
    (d.istr &&& USB_ISTR_WKUP = 0 → d.istr &&& USB_ISTR_SUSP = 0 →
      d.istr &&& USB_ISTR_RESET = 0 → env.in_cb = true → d.istr &&& USB_ISTR_SOF ≠ 0 →
      sofReady u d = true →
      (usbd_task u env d).2 = [Ev.sofRead, Ev.inCb d.current_ep]) ∧
    (d.istr &&& USB_ISTR_WKUP = 0 → d.istr &&& USB_ISTR_SUSP = 0 →
      d.istr &&& USB_ISTR_RESET = 0 → env.in_cb = true → d.istr &&& USB_ISTR_SOF ≠ 0 →
      sofReady u d = false → d.istr &&& USB_ISTR_CTR ≠ 0 →
      Ev.sofRead ∈ (usbd_task u env d).2 ∧
      Ev.ctr (d.istr &&& USB_ISTR_EP_ID) ∈ (usbd_task u env d).2) ∧
    (d.istr &&& USB_ISTR_WKUP = 0 → d.istr &&& USB_ISTR_SUSP = 0 →
      d.istr &&& USB_ISTR_RESET = 0 →
      ¬(env.in_cb = true ∧ d.istr &&& USB_ISTR_SOF ≠ 0) →
      d.istr &&& USB_ISTR_CTR ≠ 0 →
      (usbd_task u env d).2 = (task_ctr u env d).2 ∧
      Ev.ctr (d.istr &&& USB_ISTR_EP_ID) ∈ (usbd_task u env d).2) ∧
    (d.istr &&& (USB_ISTR_CTR ||| USB_ISTR_WKUP ||| USB_ISTR_SUSP ||| USB_ISTR_RESET |||
      USB_ISTR_SOF) = 0 → (usbd_task u env d).2 = []) := by
  refine ⟨?_, ?_, ?_, ?_, ?_, ?_, ?_⟩
  · intro hW
    have hne := istr_all_ne_of d.istr USB_ISTR_WKUP (istr_mask_wkup d.istr) hW
    simp [usbd_task, hne, istr_mask_wkup, hW]
  · intro hW hS
    have hne := istr_all_ne_of d.istr USB_ISTR_SUSP (istr_mask_susp d.istr) hS
    simp [usbd_task, hne, istr_mask_wkup, istr_mask_susp, hW, hS]
  · intro hW hS hR
    have hne := istr_all_ne_of d.istr USB_ISTR_RESET (istr_mask_reset d.istr) hR
    simp [usbd_task, hne, istr_mask_wkup, istr_mask_susp, istr_mask_reset, hW, hS, hR]
  · intro hW hS hR hin hF hready
    have hne := istr_all_ne_of d.istr USB_ISTR_SOF (istr_mask_sof d.istr) hF
    simp [usbd_task, hne, istr_mask_wkup, istr_mask_susp, istr_mask_reset, istr_mask_sof,
      hW, hS, hR, hin, hF, hready]
  · intro hW hS hR hin hF hready hC
    have hne := istr_all_ne_of d.istr USB_ISTR_SOF (istr_mask_sof d.istr) hF
    have htr : (usbd_task u env d).2 =
        Ev.sofRead :: (task_ctr u env
          { d with istr := clearBits d.istr USB_ISTR_SOF,
                   current_ep := if 8 ≤ d.current_ep + 1 then 1
                     else d.current_ep + 1 }).2 := by
      simp [usbd_task, hne, istr_mask_wkup, istr_mask_susp, istr_mask_reset, istr_mask_sof,
        istr_mask_ctr, hW, hS, hR, hin, hF, hready, hC]
    rw [htr]
    refine ⟨List.mem_cons_self _ _, List.mem_cons_of_mem _ ?_⟩
    have hh := task_ctr_trace_head u env
      { d with istr := clearBits d.istr USB_ISTR_SOF,
               current_ep := if 8 ≤ d.current_ep + 1 then 1 else d.current_ep + 1 }
    simpa [clearBits_sof_epid] using hh
  · intro hW hS hR hns hC
    have hne := istr_all_ne_of d.istr USB_ISTR_CTR (istr_mask_ctr d.istr) hC
    have hg : ¬(env.in_cb = true ∧
        (d.istr &&& (USB_ISTR_CTR ||| USB_ISTR_WKUP ||| USB_ISTR_SUSP ||| USB_ISTR_RESET |||
          USB_ISTR_SOF)) &&& USB_ISTR_SOF ≠ 0) := by
      rw [istr_mask_sof]
      exact hns
    have htr : (usbd_task u env d).2 = (task_ctr u env d).2 := by
      simp [usbd_task, hne, istr_mask_wkup, istr_mask_susp, istr_mask_reset, istr_mask_ctr,
        hW, hS, hR, hg, hC]
    exact ⟨htr, htr ▸ task_ctr_trace_head u env d⟩
  · intro h0
    simp [usbd_task, h0]

/-- Witness for C3: a device with only the WKUP flag pending produces exactly
the wakeup trace. -/
theorem usbd_task_event_priority_witness :
    (usbd_task uCfg0 envNone { dev0 with istr := USB_ISTR_WKUP }).2 = [Ev.wkup] :=
  (usbd_task_event_priority uCfg0 envNone { dev0 with istr := USB_ISTR_WKUP }).1 (by decide)
